/-
Verification of the Label Resolution & Document Assembly engine of
trust-doc-processor, a shallow embedding of src/python/langextract_service.py.

The embedding covers:
  * `normalizeLabel`, the modifier predicates and `map_to_template`
    (langextract_service.py lines 282-458): the ordered rule chain that
    classifies one (label, text) span into the structured document;
  * the per-span assembly loop of `process_document` (lines 235-260):
    citation recording plus classification;
  * `fill_missing_fields` (lines 460-490): the defaulting pass;
  * the request boundary of `main` / `process_document` (lines 274-280,
    492-509), with the external extraction engine abstracted as an oracle.

Python dicts are modelled as insertion-ordered association lists with
first-occurrence lookup and in-place update (`lookupS` / `setKey`), which is
exactly the observable behaviour of dict indexing and assignment.  Python
string membership (`'x' in s`) is contiguous-substring search (`hasSub`);
`str.lower` is per-character ASCII lowercasing (all labels handled by the
rule chain are ASCII).  The debug print at lines 289-291 is I/O only and is
not modelled.
-/
import Mathlib

namespace TrustDocProcessor

/-! ## Strings: substring search and label normalization -/

/-- Does the haystack start with the pattern?  (char-list version) -/
def leadingMatch : List Char → List Char → Bool
  | _, [] => true
  | [], _ :: _ => false
  | a :: as, b :: bs => a == b && leadingMatch as bs

/-- Does the haystack contain the pattern as a contiguous subsequence? -/
def hasSubList : List Char → List Char → Bool
  | [], pat => pat.isEmpty
  | a :: t, pat => leadingMatch (a :: t) pat || hasSubList t pat

/-- Python `pat in s`: contiguous substring test. -/
def hasSub (s pat : String) : Bool := hasSubList s.data pat.data

/-- Line 286: `class_name.lower().replace('_', '').replace(' ', '').replace('-', '')`.
The chained character removals are a single filter. -/
def normalizeLabel (s : String) : String :=
  String.mk ((s.data.map Char.toLower).filter (fun c => !(c == '_' || c == ' ' || c == '-')))

/-! ## Modifier predicates (lines 294-297) -/

def is_successor (n : String) : Bool :=
  hasSub n "successor" || hasSub n "alternate" || hasSub n "backup" || hasSub n "secondary"

def is_contingent (n : String) : Bool :=
  hasSub n "contingent" || hasSub n "upondeath" || hasSub n "ifno" || hasSub n "remainder"

def is_initial (n : String) : Bool :=
  hasSub n "initial" || hasSub n "current" || hasSub n "primary" || hasSub n "first"

def is_lifetime (n : String) : Bool :=
  hasSub n "lifetime" || hasSub n "living" || hasSub n "duringlife"

/-! ## JSON-ish values and insertion-ordered string-keyed maps -/

/-- The values stored in a section of the structured document: a scalar
string, a list of strings, or a free-form string-to-string map. -/
inductive Value where
  | str : String → Value
  | list : List String → Value
  | map : List (String × String) → Value
deriving DecidableEq

/-- A document section: a Python dict from field name to value. -/
abbrev FieldMap := List (String × Value)

/-- Python dict lookup (first occurrence; keys are unique by construction). -/
def lookupS : FieldMap → String → Option Value
  | [], _ => none
  | (k, v) :: rest, f => if k = f then some v else lookupS rest f

/-- Python dict assignment: update in place if present, append if absent. -/
def setKey : FieldMap → String → Value → FieldMap
  | [], f, v => [(f, v)]
  | (k, w) :: rest, f, v => if k = f then (k, v) :: rest else (k, w) :: setKey rest f v

/-- Dict assignment for the inner string-to-string maps. -/
def strMapSet : List (String × String) → String → String → List (String × String)
  | [], k, v => [(k, v)]
  | (k', w) :: rest, k, v => if k' = k then (k', v) :: rest else (k', w) :: strMapSet rest k v

/-- Lines 314-315 etc.: `if text not in lst: lst.append(text)` —
push only if the exact string is absent. -/
def appendUnique (l : List String) (t : String) : List String :=
  if t ∈ l then l else l ++ [t]

/-- The four-line list-field idiom (e.g. lines 312-315): create the list if
absent, then dedup-append.  The wildcard arm coerces a non-list value to `[]`;
in the pipeline those fields only ever hold lists, so the arm is unreachable
(Python would raise there). -/
def appendToListField (sec : FieldMap) (field text : String) : FieldMap :=
  let cur := match lookupS sec field with
    | some (Value.list l) => l
    | _ => []
  setKey sec field (Value.list (appendUnique cur text))

/-- The scalar-narrative idiom (e.g. lines 319-322): set if absent, else
concatenate with a single space.  The wildcard arm is unreachable in the
pipeline (Python would raise on `dict/list += str`). -/
def scalarAppendField (sec : FieldMap) (field text : String) : FieldMap :=
  match lookupS sec field with
  | none => setKey sec field (Value.str text)
  | some (Value.str s) => setKey sec field (Value.str (s ++ " " ++ text))
  | some _ => sec

/-- Lines 329-331 / 439-442 / 456-458: ensure `Details['Other_Provisions']`
is a dict, then key by the original label.  The wildcard arm (present but not
a map) is unreachable in the pipeline (Python would raise). -/
def otherProvisionsInsert (sec : FieldMap) (k v : String) : FieldMap :=
  match lookupS sec "Other_Provisions" with
  | none => setKey sec "Other_Provisions" (Value.map (strMapSet [] k v))
  | some (Value.map m) => setKey sec "Other_Provisions" (Value.map (strMapSet m k v))
  | some _ => sec

/-- Lines 449-453: the Summary fallback bucket; note the code explicitly
coerces a present non-dict value to `{}` before inserting. -/
def otherSummaryInsert (sec : FieldMap) (k v : String) : FieldMap :=
  match lookupS sec "Other_Summary_Provisions" with
  | some (Value.map m) => setKey sec "Other_Summary_Provisions" (Value.map (strMapSet m k v))
  | _ => setKey sec "Other_Summary_Provisions" (Value.map (strMapSet [] k v))

/-! ## The structured document -/

/-- Lines 249-256: one citation per span. -/
structure Citation where
  citation_key : String
  full_text : String
  loc_start : Nat
  loc_end : Nat
deriving DecidableEq

/-- One labeled span from the extraction engine (lines 236-246): class name,
text, and optional character interval. -/
structure ExtractionSpan where
  extraction_class : String
  extraction_text : String
  char_interval : Option (Nat × Nat)
deriving DecidableEq

/-- Lines 227-232: the structured result being assembled. -/
structure StructuredDocument where
  basic_information : FieldMap
  summary : FieldMap
  details : FieldMap
  citations : List Citation
deriving DecidableEq

def emptyDocument : StructuredDocument := ⟨[], [], [], []⟩

/-! ## The Label Resolver: map_to_template (lines 282-458) -/

/-- The ordered, first-match-wins rule chain of `map_to_template`, as a
function of the precomputed normalized key (the `normalized` local of
line 286).  Branch order mirrors the source exactly. -/
def applyRules (normalized class_name text : String) (result : StructuredDocument) : StructuredDocument :=
  if hasSub normalized "trustname" then
    { result with basic_information := setKey result.basic_information "Trust_Name" (Value.str text) }
  else if hasSub normalized "trusttype" then
    { result with basic_information := setKey result.basic_information "Trust_Type" (Value.str text) }
  else if hasSub normalized "effectivedate" || hasSub normalized "trustdate" then
    { result with basic_information := setKey result.basic_information "Effective_Date" (Value.str text) }
  else if hasSub normalized "grantor" || hasSub normalized "settlor" || hasSub normalized "trustor" then
    if !(is_successor normalized) then
      { result with basic_information := appendToListField result.basic_information "Grantor(s)" text }
    else
      result
  else if hasSub normalized "trusteepowers" || hasSub normalized "trusteepower" then
    { result with summary := scalarAppendField result.summary "Trustee_Powers_and_Duties" text }
  else if hasSub normalized "trustee" then
    if hasSub normalized "special" || hasSub normalized "committee" then
      { result with details := otherProvisionsInsert result.details class_name text }
    else if is_successor normalized then
      { result with basic_information := appendToListField result.basic_information "Successor_Trustee(s)" text }
    else
      { result with basic_information := appendToListField result.basic_information "Trustee(s)" text }
  else if hasSub normalized "beneficiar" then
    if is_lifetime normalized || hasSub normalized "duringgrantorslife" then
      { result with basic_information := appendToListField result.basic_information "Primary_Beneficiaries" text }
    else if is_contingent normalized || hasSub normalized "remainder" || hasSub normalized "alternate" then
      { result with basic_information := appendToListField result.basic_information "Contingent_Beneficiaries" text }
    else if hasSub normalized "primary" || is_initial normalized || hasSub normalized "upondeath" then
      { result with basic_information := appendToListField result.basic_information "Primary_Beneficiaries" text }
    else
      result
  else if hasSub normalized "purpose" || hasSub normalized "intent" then
    { result with summary := scalarAppendField result.summary "Purpose_and_Intent" text }
  else if hasSub normalized "howthetrustwork" || hasSub normalized "howthetrust" || hasSub normalized "operation" then
    { result with summary := scalarAppendField result.summary "How_the_Trust_Works" text }
  else if hasSub normalized "distribution" then
    { result with summary := scalarAppendField result.summary "Distribution_Provisions" text }
  else if hasSub normalized "power" || hasSub normalized "duties" then
    { result with summary := scalarAppendField result.summary "Trustee_Powers_and_Duties" text }
  else if hasSub normalized "amendment" || hasSub normalized "termination" then
    { result with summary := scalarAppendField result.summary "Amendment_and_Termination" text }
  else if hasSub normalized "special" && hasSub normalized "provision" then
    { result with summary := scalarAppendField result.summary "Special_Provisions" text }
  else if hasSub normalized "taxid" || hasSub normalized "ein" then
    { result with details := setKey result.details "Trust_Tax_ID/EIN" (Value.str text) }
  else if hasSub normalized "stateofformation" || hasSub normalized "governinglaw" then
    { result with details := setKey result.details "State_of_Formation" (Value.str text) }
  else if hasSub normalized "trustprotector" then
    { result with details := setKey result.details "Trust_Protector" (Value.str text) }
  else if hasSub normalized "investmentadvisor" then
    { result with details := setKey result.details "Investment_Advisor" (Value.str text) }
  else if hasSub normalized "distributionadvisor" then
    { result with details := setKey result.details "Distribution_Advisor" (Value.str text) }
  else if hasSub normalized "gsttax" || hasSub normalized "gstplanning" then
    { result with details := setKey result.details "GST_Tax_Planning" (Value.str text) }
  else if hasSub normalized "maritaldeduction" then
    { result with details := setKey result.details "Marital_Deduction" (Value.str text) }
  else if hasSub normalized "lawfirm" then
    { result with details := setKey result.details "Law_Firm" (Value.str text) }
  else if hasSub normalized "trustsitus" || hasSub normalized "situs" then
    { result with details := setKey result.details "Trust_Situs" (Value.str text) }
  else if hasSub normalized "spendthrift" then
    { result with details := setKey result.details "Spendthrift_Provision" (Value.str (if text = "" then "no" else "yes")) }
  else if hasSub normalized "nocontest" then
    { result with details := setKey result.details "No-Contest_Clause" (Value.str (if text = "" then "no" else "yes")) }
  else if hasSub normalized "advisor" || hasSub normalized "adviser" || hasSub normalized "committee" || hasSub normalized "protector" || hasSub normalized "manager" || hasSub normalized "advocate" || hasSub normalized "guardian" then
    { result with details := otherProvisionsInsert result.details class_name text }
  else
    if text.length > 100 then
      { result with summary := otherSummaryInsert result.summary class_name text }
    else
      { result with details := otherProvisionsInsert result.details class_name text }

/-- map_to_template (lines 282-458): normalize the class name, then run the
rule chain. -/
def map_to_template (class_name text : String) (result : StructuredDocument) : StructuredDocument :=
  applyRules (normalizeLabel class_name) class_name text result

/-! ## The Document Assembler (lines 235-260) -/

/-- Lines 241-246: offsets default to `(0, len(text))` when the span carries
no character interval. -/
def citationOf (e : ExtractionSpan) : Citation :=
  match e.char_interval with
  | some (s, en) => ⟨e.extraction_class, e.extraction_text, s, en⟩
  | none => ⟨e.extraction_class, e.extraction_text, 0, e.extraction_text.length⟩

/-- One iteration of the loop at lines 236-260: record the citation
unconditionally, then classify the span into the document. -/
def processExtraction (result : StructuredDocument) (e : ExtractionSpan) : StructuredDocument :=
  map_to_template e.extraction_class e.extraction_text
    { result with citations := result.citations ++ [citationOf e] }

/-- The whole assembly loop, starting from the empty document of line 227. -/
def assembleSpans (spans : List ExtractionSpan) : StructuredDocument :=
  spans.foldl processExtraction emptyDocument

/-! ## The schema template and the Defaulter (lines 460-490) -/

/-- A declared field type in the template JSON: the code only distinguishes
`isinstance(field_type, list)` and `field_type == 'yes_no'`, so a declaration
is either a JSON array or a string. -/
inductive FieldSpec where
  | listSpec : FieldSpec
  | strSpec : String → FieldSpec
deriving DecidableEq

/-- The three-section template tree. -/
structure Template where
  basic_information : List (String × FieldSpec)
  summary : List (String × FieldSpec)
  details : List (String × FieldSpec)

/-- Lines 465-470: in Basic_Information a list-declared field defaults to
`[]`, anything else to the caller's default value. -/
def basicDefault (dv : String) (_f : String) (spec : FieldSpec) : Value :=
  match spec with
  | FieldSpec.listSpec => Value.list []
  | FieldSpec.strSpec _ => Value.str dv

/-- Lines 473-479: in Summary only the field named Other_Summary_Provisions
defaults to `{}`; every other field gets the default value (the declared
type is ignored). -/
def summaryDefault (dv : String) (f : String) (_spec : FieldSpec) : Value :=
  if f = "Other_Summary_Provisions" then Value.map [] else Value.str dv

/-- Lines 482-490: in Details the field named Other_Provisions defaults to
`{}`, a field declared 'yes_no' to "no", anything else to the default value. -/
def detailsDefault (dv : String) (f : String) (spec : FieldSpec) : Value :=
  if f = "Other_Provisions" then Value.map []
  else
    match spec with
    | FieldSpec.strSpec "yes_no" => Value.str "no"
    | _ => Value.str dv

/-- One section-filling loop: `for field, field_type in template[...].items():
if field not in result[...]: result[...][field] = default`.  The dict is
consulted as it is being extended, hence the fold. -/
def fillSection (valueFor : String → FieldSpec → Value) (tmpl : List (String × FieldSpec)) (sec : FieldMap) : FieldMap :=
  tmpl.foldl (fun acc p => if lookupS acc p.1 = none then setKey acc p.1 (valueFor p.1 p.2) else acc) sec

/-- fill_missing_fields (lines 460-490): fill the three sections in turn. -/
def fill_missing_fields (result : StructuredDocument) (template : Template) (default_value : String) : StructuredDocument :=
  { result with
      basic_information := fillSection (basicDefault default_value) template.basic_information result.basic_information,
      summary := fillSection (summaryDefault default_value) template.summary result.summary,
      details := fillSection (detailsDefault default_value) template.details result.details }

/-- Modelled from the spec: lib/trust_template_new.json is consumed by
`load_template` but is not under src.  The field inventory and kinds are
taken from the spec (the field names used throughout section 4.1 of the
spec and by `map_to_template`; Basic_Information role fields are lists,
Spendthrift_Provision and No-Contest_Clause are declared 'yes_no',
Other_Provisions / Other_Summary_Provisions are the open-map buckets). -/
def trustTemplate : Template where
  basic_information :=
    [("Trust_Name", FieldSpec.strSpec "text"),
     ("Trust_Type", FieldSpec.strSpec "text"),
     ("Effective_Date", FieldSpec.strSpec "text"),
     ("Grantor(s)", FieldSpec.listSpec),
     ("Trustee(s)", FieldSpec.listSpec),
     ("Successor_Trustee(s)", FieldSpec.listSpec),
     ("Primary_Beneficiaries", FieldSpec.listSpec),
     ("Contingent_Beneficiaries", FieldSpec.listSpec)]
  summary :=
    [("Purpose_and_Intent", FieldSpec.strSpec "text"),
     ("How_the_Trust_Works", FieldSpec.strSpec "text"),
     ("Distribution_Provisions", FieldSpec.strSpec "text"),
     ("Trustee_Powers_and_Duties", FieldSpec.strSpec "text"),
     ("Amendment_and_Termination", FieldSpec.strSpec "text"),
     ("Special_Provisions", FieldSpec.strSpec "text"),
     ("Other_Summary_Provisions", FieldSpec.strSpec "map")]
  details :=
    [("Trust_Tax_ID/EIN", FieldSpec.strSpec "text"),
     ("State_of_Formation", FieldSpec.strSpec "text"),
     ("Trust_Protector", FieldSpec.strSpec "text"),
     ("Investment_Advisor", FieldSpec.strSpec "text"),
     ("Distribution_Advisor", FieldSpec.strSpec "text"),
     ("GST_Tax_Planning", FieldSpec.strSpec "text"),
     ("Marital_Deduction", FieldSpec.strSpec "text"),
     ("Law_Firm", FieldSpec.strSpec "text"),
     ("Trust_Situs", FieldSpec.strSpec "text"),
     ("Spendthrift_Provision", FieldSpec.strSpec "yes_no"),
     ("No-Contest_Clause", FieldSpec.strSpec "yes_no"),
     ("Other_Provisions", FieldSpec.strSpec "map")]

/-! ## The request boundary (lines 274-280, 492-509) -/

/-- The request read from stdin; absent `api_key` / `document_text` arrive
as `""` via `input_data.get(..., "")`. -/
structure Request where
  document_text : String
  api_key : String
  instructions : Option String

/-- What the external extraction engine call can produce: a span list, or a
raised exception with its message, class name and formatted traceback. -/
inductive EngineResult where
  | ok : List ExtractionSpan → EngineResult
  | exn : String → String → String → EngineResult

/-- The serialized responses of the service: the bare `{"error": ...}` dicts
built in `main` (lines 501-504), the `{"error","type","traceback"}` dict of
the exception handler (lines 276-280), or the success payload (lines 269-272,
original engine output alongside the transformed document). -/
inductive Response where
  | simpleError : String → Response
  | typedError : String → String → String → Response
  | success : List ExtractionSpan → StructuredDocument → Response
deriving DecidableEq

/-- Does the response carry a "type" field? -/
def responseHasTypeField : Response → Bool
  | Response.typedError _ _ _ => true
  | _ => false

/-- Is the response an error response? -/
def responseIsError : Response → Bool
  | Response.success _ _ => false
  | _ => true

/-- process_document after the engine call: the try/except at lines 181-280.
The engine call itself is abstracted as its outcome. -/
def process_document (engineResult : EngineResult) (template : Template)
    (fillEnabled : Bool) (default_value : String) : Response :=
  match engineResult with
  | EngineResult.exn e ty tb => Response.typedError e ty tb
  | EngineResult.ok spans =>
      let structured := assembleSpans spans
      Response.success spans
        (if fillEnabled then fill_missing_fields structured template default_value else structured)

/-- main (lines 492-509): validation short-circuit, then processing.  The
engine is passed as an oracle from document text and instructions to an
outcome, so that "the engine is not invoked" is expressible as independence
from the oracle. -/
def mainStep (req : Request) (engine : String → Option String → EngineResult)
    (template : Template) (fillEnabled : Bool) (default_value : String) : Response :=
  if req.api_key = "" then Response.simpleError "No API key provided"
  else if req.document_text = "" then Response.simpleError "No document text provided"
  else process_document (engine req.document_text req.instructions) template fillEnabled default_value

/-! ## Lemmas: dict lookup and update -/

theorem lookupS_setKey (sec : FieldMap) (g f : String) (v : Value) :
    lookupS (setKey sec g v) f = if f = g then some v else lookupS sec f := by
  induction sec with
  | nil =>
      by_cases h : f = g
      · subst h; simp [setKey, lookupS]
      · have hgf : ¬ g = f := fun e => h e.symm
        simp [setKey, lookupS, h, hgf]
  | cons p rest ih =>
      obtain ⟨k, w⟩ := p
      by_cases hkg : k = g
      · subst hkg
        by_cases hkf : k = f
        · subst hkf; simp [setKey, lookupS]
        · have hfk : ¬ f = k := fun e => hkf e.symm
          simp [setKey, lookupS, hkf, hfk]
      · by_cases hkf : k = f
        · subst hkf
          simp [setKey, lookupS, hkg]
        · simp [setKey, lookupS, hkg, hkf, ih]

theorem lookupS_setKey_self (sec : FieldMap) (f : String) (v : Value) :
    lookupS (setKey sec f v) f = some v := by
  rw [lookupS_setKey, if_pos rfl]

theorem lookupS_setKey_ne (sec : FieldMap) {g f : String} (h : f ≠ g) (v : Value) :
    lookupS (setKey sec g v) f = lookupS sec f := by
  rw [lookupS_setKey, if_neg h]

theorem lookupS_appendToListField_ne (sec : FieldMap) {g f : String} (h : f ≠ g) (t : String) :
    lookupS (appendToListField sec g t) f = lookupS sec f := by
  simp only [appendToListField]
  exact lookupS_setKey_ne sec h _

theorem lookupS_scalarAppendField_ne (sec : FieldMap) {g f : String} (h : f ≠ g) (t : String) :
    lookupS (scalarAppendField sec g t) f = lookupS sec f := by
  rcases hv : lookupS sec g with _ | v
  · simp [scalarAppendField, hv, lookupS_setKey_ne sec h]
  · cases v <;> simp [scalarAppendField, hv, lookupS_setKey_ne sec h]

theorem lookupS_otherProvisionsInsert_ne (sec : FieldMap) {f : String}
    (h : f ≠ "Other_Provisions") (k v : String) :
    lookupS (otherProvisionsInsert sec k v) f = lookupS sec f := by
  rcases hv : lookupS sec "Other_Provisions" with _ | w
  · simp [otherProvisionsInsert, hv, lookupS_setKey_ne sec h]
  · cases w <;> simp [otherProvisionsInsert, hv, lookupS_setKey_ne sec h]

theorem lookupS_otherSummaryInsert_ne (sec : FieldMap) {f : String}
    (h : f ≠ "Other_Summary_Provisions") (k v : String) :
    lookupS (otherSummaryInsert sec k v) f = lookupS sec f := by
  rcases hv : lookupS sec "Other_Summary_Provisions" with _ | w
  · simp [otherSummaryInsert, hv, lookupS_setKey_ne sec h]
  · cases w <;> simp [otherSummaryInsert, hv, lookupS_setKey_ne sec h]

/-! ## Lemmas: the defaulting fold -/

theorem fillSection_cons (vf : String → FieldSpec → Value) (p : String × FieldSpec)
    (rest : List (String × FieldSpec)) (sec : FieldMap) :
    fillSection vf (p :: rest) sec
      = fillSection vf rest (if lookupS sec p.1 = none then setKey sec p.1 (vf p.1 p.2) else sec) :=
  rfl

/-- Filling never touches a key that is not declared in the template slice. -/
theorem fillSection_not_mem (vf : String → FieldSpec → Value)
    (tl : List (String × FieldSpec)) {f : String} (h : ∀ p ∈ tl, p.1 ≠ f) :
    ∀ sec, lookupS (fillSection vf tl sec) f = lookupS sec f := by
  induction tl with
  | nil => intro sec; rfl
  | cons p rest ih =>
      intro sec
      rw [fillSection_cons]
      have hp : f ≠ p.1 := Ne.symm (h p (List.mem_cons_self p rest))
      have hr : ∀ q ∈ rest, q.1 ≠ f := fun q hq => h q (List.mem_cons_of_mem _ hq)
      by_cases hc : lookupS sec p.1 = none
      · rw [if_pos hc, ih hr, lookupS_setKey_ne _ hp]
      · rw [if_neg hc, ih hr]

/-- Filling never overwrites a value that is already present. -/
theorem fillSection_preserves_some (vf : String → FieldSpec → Value)
    (tl : List (String × FieldSpec)) {f : String} {v : Value} :
    ∀ sec, lookupS sec f = some v → lookupS (fillSection vf tl sec) f = some v := by
  induction tl with
  | nil => intro sec h; exact h
  | cons p rest ih =>
      intro sec h
      rw [fillSection_cons]
      by_cases hc : lookupS sec p.1 = none
      · rw [if_pos hc]
        apply ih
        by_cases hpf : f = p.1
        · subst hpf; rw [h] at hc; cases hc
        · rw [lookupS_setKey_ne _ hpf]; exact h
      · rw [if_neg hc]; exact ih sec h

/-- Filling never makes a present key absent. -/
theorem fillSection_isSome_mono (vf : String → FieldSpec → Value)
    (tl : List (String × FieldSpec)) :
    ∀ (sec : FieldMap) {f : String}, (lookupS sec f).isSome = true →
      (lookupS (fillSection vf tl sec) f).isSome = true := by
  induction tl with
  | nil => intro sec f h; exact h
  | cons p rest ih =>
      intro sec f h
      rw [fillSection_cons]
      by_cases hc : lookupS sec p.1 = none
      · rw [if_pos hc]
        apply ih
        by_cases hpf : f = p.1
        · subst hpf; rw [lookupS_setKey_self]; rfl
        · rw [lookupS_setKey_ne _ hpf]; exact h
      · rw [if_neg hc]; exact ih sec h

/-- After filling, every declared key is present. -/
theorem fillSection_mem_isSome (vf : String → FieldSpec → Value)
    (tl : List (String × FieldSpec)) {f : String} {spec : FieldSpec}
    (hmem : (f, spec) ∈ tl) :
    ∀ sec, (lookupS (fillSection vf tl sec) f).isSome = true := by
  induction tl with
  | nil => cases hmem
  | cons p rest ih =>
      intro sec
      rw [fillSection_cons]
      rcases List.mem_cons.mp hmem with heq | hrest
      · subst heq
        by_cases hc : lookupS sec f = none
        · rw [if_pos hc]
          exact fillSection_isSome_mono vf rest _ (by rw [lookupS_setKey_self]; rfl)
        · rw [if_neg hc]
          exact fillSection_isSome_mono vf rest _ (Option.isSome_iff_ne_none.mpr hc)
      · exact ih hrest _

/-- A key absent before the fill, declared once, receives exactly its
section default. -/
theorem fillSection_fills (vf : String → FieldSpec → Value)
    (tl : List (String × FieldSpec)) {f : String} {spec : FieldSpec}
    (hmem : (f, spec) ∈ tl) (hnodup : (tl.map Prod.fst).Nodup) :
    ∀ sec, lookupS sec f = none →
      lookupS (fillSection vf tl sec) f = some (vf f spec) := by
  induction tl with
  | nil => cases hmem
  | cons p rest ih =>
      intro sec hnone
      rw [List.map_cons, List.nodup_cons] at hnodup
      rw [fillSection_cons]
      rcases List.mem_cons.mp hmem with heq | hrest
      · subst heq
        rw [if_pos hnone]
        have hnotin : ∀ q ∈ rest, q.1 ≠ f := by
          intro q hq e
          have hm : q.1 ∈ rest.map Prod.fst := List.mem_map_of_mem Prod.fst hq
          exact hnodup.1 (e ▸ hm)
        rw [fillSection_not_mem vf rest hnotin, lookupS_setKey_self]
      · have hne : f ≠ p.1 := by
          intro e
          have hm : f ∈ rest.map Prod.fst := List.mem_map_of_mem Prod.fst hrest
          exact hnodup.1 (e ▸ hm)
        by_cases hc : lookupS sec p.1 = none
        · rw [if_pos hc]
          exact ih hrest hnodup.2 _ (by rw [lookupS_setKey_ne _ hne]; exact hnone)
        · rw [if_neg hc]
          exact ih hrest hnodup.2 _ hnone

/-- Filling a section in which every declared key is already present is the
identity. -/
theorem fillSection_idem_of_isSome (vf : String → FieldSpec → Value)
    (tl : List (String × FieldSpec)) :
    ∀ sec, (∀ p ∈ tl, (lookupS sec p.1).isSome = true) → fillSection vf tl sec = sec := by
  induction tl with
  | nil => intro sec _; rfl
  | cons p rest ih =>
      intro sec h
      have hp := h p (List.mem_cons_self p rest)
      have hc : ¬ lookupS sec p.1 = none := by
        intro e; rw [e] at hp; cases hp
      rw [fillSection_cons, if_neg hc]
      exact ih sec (fun q hq => h q (List.mem_cons_of_mem _ hq))

theorem fillSection_idem (vf : String → FieldSpec → Value)
    (tl : List (String × FieldSpec)) (sec : FieldMap) :
    fillSection vf tl (fillSection vf tl sec) = fillSection vf tl sec := by
  apply fillSection_idem_of_isSome
  intro p hp
  exact fillSection_mem_isSome vf tl (by simpa using hp) sec

/-! ## Lemmas: case analysis on the rule chain -/

/-- Eliminator for `ite` under an arbitrary property. -/
theorem iteP {c : Prop} [Decidable c] {α : Sort _} {a b : α} {P : α → Prop}
    (ha : c → P a) (hb : ¬ c → P b) : P (if c then a else b) := by
  by_cases h : c
  · rw [if_pos h]; exact ha h
  · rw [if_neg h]; exact hb h

theorem bool_eq_false {b : Bool} (h : ¬ b = true) : b = false := by
  cases b
  · rfl
  · exact absurd rfl h

/-- Complete case analysis on the rule chain: to prove any property of
`applyRules n c t d`, prove it for each branch outcome under that branch's
exact path condition (earlier conditions false, own condition true). -/
theorem applyRules_cases (n c t : String) (d : StructuredDocument)
    (P : StructuredDocument → Prop)
    (hTrustName : hasSub n "trustname" = true →
      P { d with basic_information := setKey d.basic_information "Trust_Name" (Value.str t) })
    (hTrustType : hasSub n "trustname" = false → hasSub n "trusttype" = true →
      P { d with basic_information := setKey d.basic_information "Trust_Type" (Value.str t) })
    (hEffDate : hasSub n "trustname" = false → hasSub n "trusttype" = false → (hasSub n "effectivedate" || hasSub n "trustdate") = true →
      P { d with basic_information := setKey d.basic_information "Effective_Date" (Value.str t) })
    (hGrantor : hasSub n "trustname" = false → hasSub n "trusttype" = false → (hasSub n "effectivedate" || hasSub n "trustdate") = false → (hasSub n "grantor" || hasSub n "settlor" || hasSub n "trustor") = true → (!is_successor n) = true →
      P { d with basic_information := appendToListField d.basic_information "Grantor(s)" t })
    (hGrantorSucc : hasSub n "trustname" = false → hasSub n "trusttype" = false → (hasSub n "effectivedate" || hasSub n "trustdate") = false → (hasSub n "grantor" || hasSub n "settlor" || hasSub n "trustor") = true → (!is_successor n) = false →
      P d)
    (hTrusteePowers : hasSub n "trustname" = false → hasSub n "trusttype" = false → (hasSub n "effectivedate" || hasSub n "trustdate") = false → (hasSub n "grantor" || hasSub n "settlor" || hasSub n "trustor") = false → (hasSub n "trusteepowers" || hasSub n "trusteepower") = true →
      P { d with summary := scalarAppendField d.summary "Trustee_Powers_and_Duties" t })
    (hTrusteeSpecial : hasSub n "trustname" = false → hasSub n "trusttype" = false → (hasSub n "effectivedate" || hasSub n "trustdate") = false → (hasSub n "grantor" || hasSub n "settlor" || hasSub n "trustor") = false → (hasSub n "trusteepowers" || hasSub n "trusteepower") = false → hasSub n "trustee" = true → (hasSub n "special" || hasSub n "committee") = true →
      P { d with details := otherProvisionsInsert d.details c t })
    (hTrusteeSucc : hasSub n "trustname" = false → hasSub n "trusttype" = false → (hasSub n "effectivedate" || hasSub n "trustdate") = false → (hasSub n "grantor" || hasSub n "settlor" || hasSub n "trustor") = false → (hasSub n "trusteepowers" || hasSub n "trusteepower") = false → hasSub n "trustee" = true → (hasSub n "special" || hasSub n "committee") = false → is_successor n = true →
      P { d with basic_information := appendToListField d.basic_information "Successor_Trustee(s)" t })
    (hTrusteePlain : hasSub n "trustname" = false → hasSub n "trusttype" = false → (hasSub n "effectivedate" || hasSub n "trustdate") = false → (hasSub n "grantor" || hasSub n "settlor" || hasSub n "trustor") = false → (hasSub n "trusteepowers" || hasSub n "trusteepower") = false → hasSub n "trustee" = true → (hasSub n "special" || hasSub n "committee") = false → is_successor n = false →
      P { d with basic_information := appendToListField d.basic_information "Trustee(s)" t })
    (hBenLifetime : hasSub n "trustname" = false → hasSub n "trusttype" = false → (hasSub n "effectivedate" || hasSub n "trustdate") = false → (hasSub n "grantor" || hasSub n "settlor" || hasSub n "trustor") = false → (hasSub n "trusteepowers" || hasSub n "trusteepower") = false → hasSub n "trustee" = false → hasSub n "beneficiar" = true → (is_lifetime n || hasSub n "duringgrantorslife") = true →
      P { d with basic_information := appendToListField d.basic_information "Primary_Beneficiaries" t })
    (hBenContingent : hasSub n "trustname" = false → hasSub n "trusttype" = false → (hasSub n "effectivedate" || hasSub n "trustdate") = false → (hasSub n "grantor" || hasSub n "settlor" || hasSub n "trustor") = false → (hasSub n "trusteepowers" || hasSub n "trusteepower") = false → hasSub n "trustee" = false → hasSub n "beneficiar" = true → (is_lifetime n || hasSub n "duringgrantorslife") = false → (is_contingent n || hasSub n "remainder" || hasSub n "alternate") = true →
      P { d with basic_information := appendToListField d.basic_information "Contingent_Beneficiaries" t })
    (hBenPrimary : hasSub n "trustname" = false → hasSub n "trusttype" = false → (hasSub n "effectivedate" || hasSub n "trustdate") = false → (hasSub n "grantor" || hasSub n "settlor" || hasSub n "trustor") = false → (hasSub n "trusteepowers" || hasSub n "trusteepower") = false → hasSub n "trustee" = false → hasSub n "beneficiar" = true → (is_lifetime n || hasSub n "duringgrantorslife") = false → (is_contingent n || hasSub n "remainder" || hasSub n "alternate") = false → (hasSub n "primary" || is_initial n || hasSub n "upondeath") = true →
      P { d with basic_information := appendToListField d.basic_information "Primary_Beneficiaries" t })
    (hBenNone : hasSub n "trustname" = false → hasSub n "trusttype" = false → (hasSub n "effectivedate" || hasSub n "trustdate") = false → (hasSub n "grantor" || hasSub n "settlor" || hasSub n "trustor") = false → (hasSub n "trusteepowers" || hasSub n "trusteepower") = false → hasSub n "trustee" = false → hasSub n "beneficiar" = true → (is_lifetime n || hasSub n "duringgrantorslife") = false → (is_contingent n || hasSub n "remainder" || hasSub n "alternate") = false → (hasSub n "primary" || is_initial n || hasSub n "upondeath") = false →
      P d)
    (hPurpose : hasSub n "trustname" = false → hasSub n "trusttype" = false → (hasSub n "effectivedate" || hasSub n "trustdate") = false → (hasSub n "grantor" || hasSub n "settlor" || hasSub n "trustor") = false → (hasSub n "trusteepowers" || hasSub n "trusteepower") = false → hasSub n "trustee" = false → hasSub n "beneficiar" = false → (hasSub n "purpose" || hasSub n "intent") = true →
      P { d with summary := scalarAppendField d.summary "Purpose_and_Intent" t })
    (hHow : hasSub n "trustname" = false → hasSub n "trusttype" = false → (hasSub n "effectivedate" || hasSub n "trustdate") = false → (hasSub n "grantor" || hasSub n "settlor" || hasSub n "trustor") = false → (hasSub n "trusteepowers" || hasSub n "trusteepower") = false → hasSub n "trustee" = false → hasSub n "beneficiar" = false → (hasSub n "purpose" || hasSub n "intent") = false → (hasSub n "howthetrustwork" || hasSub n "howthetrust" || hasSub n "operation") = true →
      P { d with summary := scalarAppendField d.summary "How_the_Trust_Works" t })
    (hDistribution : hasSub n "trustname" = false → hasSub n "trusttype" = false → (hasSub n "effectivedate" || hasSub n "trustdate") = false → (hasSub n "grantor" || hasSub n "settlor" || hasSub n "trustor") = false → (hasSub n "trusteepowers" || hasSub n "trusteepower") = false → hasSub n "trustee" = false → hasSub n "beneficiar" = false → (hasSub n "purpose" || hasSub n "intent") = false → (hasSub n "howthetrustwork" || hasSub n "howthetrust" || hasSub n "operation") = false → hasSub n "distribution" = true →
      P { d with summary := scalarAppendField d.summary "Distribution_Provisions" t })
    (hPower : hasSub n "trustname" = false → hasSub n "trusttype" = false → (hasSub n "effectivedate" || hasSub n "trustdate") = false → (hasSub n "grantor" || hasSub n "settlor" || hasSub n "trustor") = false → (hasSub n "trusteepowers" || hasSub n "trusteepower") = false → hasSub n "trustee" = false → hasSub n "beneficiar" = false → (hasSub n "purpose" || hasSub n "intent") = false → (hasSub n "howthetrustwork" || hasSub n "howthetrust" || hasSub n "operation") = false → hasSub n "distribution" = false → (hasSub n "power" || hasSub n "duties") = true →
      P { d with summary := scalarAppendField d.summary "Trustee_Powers_and_Duties" t })
    (hAmendment : hasSub n "trustname" = false → hasSub n "trusttype" = false → (hasSub n "effectivedate" || hasSub n "trustdate") = false → (hasSub n "grantor" || hasSub n "settlor" || hasSub n "trustor") = false → (hasSub n "trusteepowers" || hasSub n "trusteepower") = false → hasSub n "trustee" = false → hasSub n "beneficiar" = false → (hasSub n "purpose" || hasSub n "intent") = false → (hasSub n "howthetrustwork" || hasSub n "howthetrust" || hasSub n "operation") = false → hasSub n "distribution" = false → (hasSub n "power" || hasSub n "duties") = false → (hasSub n "amendment" || hasSub n "termination") = true →
      P { d with summary := scalarAppendField d.summary "Amendment_and_Termination" t })
    (hSpecialProv : hasSub n "trustname" = false → hasSub n "trusttype" = false → (hasSub n "effectivedate" || hasSub n "trustdate") = false → (hasSub n "grantor" || hasSub n "settlor" || hasSub n "trustor") = false → (hasSub n "trusteepowers" || hasSub n "trusteepower") = false → hasSub n "trustee" = false → hasSub n "beneficiar" = false → (hasSub n "purpose" || hasSub n "intent") = false → (hasSub n "howthetrustwork" || hasSub n "howthetrust" || hasSub n "operation") = false → hasSub n "distribution" = false → (hasSub n "power" || hasSub n "duties") = false → (hasSub n "amendment" || hasSub n "termination") = false → (hasSub n "special" && hasSub n "provision") = true →
      P { d with summary := scalarAppendField d.summary "Special_Provisions" t })
    (hTaxId : hasSub n "trustname" = false → hasSub n "trusttype" = false → (hasSub n "effectivedate" || hasSub n "trustdate") = false → (hasSub n "grantor" || hasSub n "settlor" || hasSub n "trustor") = false → (hasSub n "trusteepowers" || hasSub n "trusteepower") = false → hasSub n "trustee" = false → hasSub n "beneficiar" = false → (hasSub n "purpose" || hasSub n "intent") = false → (hasSub n "howthetrustwork" || hasSub n "howthetrust" || hasSub n "operation") = false → hasSub n "distribution" = false → (hasSub n "power" || hasSub n "duties") = false → (hasSub n "amendment" || hasSub n "termination") = false → (hasSub n "special" && hasSub n "provision") = false → (hasSub n "taxid" || hasSub n "ein") = true →
      P { d with details := setKey d.details "Trust_Tax_ID/EIN" (Value.str t) })
    (hStateForm : hasSub n "trustname" = false → hasSub n "trusttype" = false → (hasSub n "effectivedate" || hasSub n "trustdate") = false → (hasSub n "grantor" || hasSub n "settlor" || hasSub n "trustor") = false → (hasSub n "trusteepowers" || hasSub n "trusteepower") = false → hasSub n "trustee" = false → hasSub n "beneficiar" = false → (hasSub n "purpose" || hasSub n "intent") = false → (hasSub n "howthetrustwork" || hasSub n "howthetrust" || hasSub n "operation") = false → hasSub n "distribution" = false → (hasSub n "power" || hasSub n "duties") = false → (hasSub n "amendment" || hasSub n "termination") = false → (hasSub n "special" && hasSub n "provision") = false → (hasSub n "taxid" || hasSub n "ein") = false → (hasSub n "stateofformation" || hasSub n "governinglaw") = true →
      P { d with details := setKey d.details "State_of_Formation" (Value.str t) })
    (hProtector : hasSub n "trustname" = false → hasSub n "trusttype" = false → (hasSub n "effectivedate" || hasSub n "trustdate") = false → (hasSub n "grantor" || hasSub n "settlor" || hasSub n "trustor") = false → (hasSub n "trusteepowers" || hasSub n "trusteepower") = false → hasSub n "trustee" = false → hasSub n "beneficiar" = false → (hasSub n "purpose" || hasSub n "intent") = false → (hasSub n "howthetrustwork" || hasSub n "howthetrust" || hasSub n "operation") = false → hasSub n "distribution" = false → (hasSub n "power" || hasSub n "duties") = false → (hasSub n "amendment" || hasSub n "termination") = false → (hasSub n "special" && hasSub n "provision") = false → (hasSub n "taxid" || hasSub n "ein") = false → (hasSub n "stateofformation" || hasSub n "governinglaw") = false → hasSub n "trustprotector" = true →
      P { d with details := setKey d.details "Trust_Protector" (Value.str t) })
    (hInvAdvisor : hasSub n "trustname" = false → hasSub n "trusttype" = false → (hasSub n "effectivedate" || hasSub n "trustdate") = false → (hasSub n "grantor" || hasSub n "settlor" || hasSub n "trustor") = false → (hasSub n "trusteepowers" || hasSub n "trusteepower") = false → hasSub n "trustee" = false → hasSub n "beneficiar" = false → (hasSub n "purpose" || hasSub n "intent") = false → (hasSub n "howthetrustwork" || hasSub n "howthetrust" || hasSub n "operation") = false → hasSub n "distribution" = false → (hasSub n "power" || hasSub n "duties") = false → (hasSub n "amendment" || hasSub n "termination") = false → (hasSub n "special" && hasSub n "provision") = false → (hasSub n "taxid" || hasSub n "ein") = false → (hasSub n "stateofformation" || hasSub n "governinglaw") = false → hasSub n "trustprotector" = false → hasSub n "investmentadvisor" = true →
      P { d with details := setKey d.details "Investment_Advisor" (Value.str t) })
    (hDistAdvisor : hasSub n "trustname" = false → hasSub n "trusttype" = false → (hasSub n "effectivedate" || hasSub n "trustdate") = false → (hasSub n "grantor" || hasSub n "settlor" || hasSub n "trustor") = false → (hasSub n "trusteepowers" || hasSub n "trusteepower") = false → hasSub n "trustee" = false → hasSub n "beneficiar" = false → (hasSub n "purpose" || hasSub n "intent") = false → (hasSub n "howthetrustwork" || hasSub n "howthetrust" || hasSub n "operation") = false → hasSub n "distribution" = false → (hasSub n "power" || hasSub n "duties") = false → (hasSub n "amendment" || hasSub n "termination") = false → (hasSub n "special" && hasSub n "provision") = false → (hasSub n "taxid" || hasSub n "ein") = false → (hasSub n "stateofformation" || hasSub n "governinglaw") = false → hasSub n "trustprotector" = false → hasSub n "investmentadvisor" = false → hasSub n "distributionadvisor" = true →
      P { d with details := setKey d.details "Distribution_Advisor" (Value.str t) })
    (hGst : hasSub n "trustname" = false → hasSub n "trusttype" = false → (hasSub n "effectivedate" || hasSub n "trustdate") = false → (hasSub n "grantor" || hasSub n "settlor" || hasSub n "trustor") = false → (hasSub n "trusteepowers" || hasSub n "trusteepower") = false → hasSub n "trustee" = false → hasSub n "beneficiar" = false → (hasSub n "purpose" || hasSub n "intent") = false → (hasSub n "howthetrustwork" || hasSub n "howthetrust" || hasSub n "operation") = false → hasSub n "distribution" = false → (hasSub n "power" || hasSub n "duties") = false → (hasSub n "amendment" || hasSub n "termination") = false → (hasSub n "special" && hasSub n "provision") = false → (hasSub n "taxid" || hasSub n "ein") = false → (hasSub n "stateofformation" || hasSub n "governinglaw") = false → hasSub n "trustprotector" = false → hasSub n "investmentadvisor" = false → hasSub n "distributionadvisor" = false → (hasSub n "gsttax" || hasSub n "gstplanning") = true →
      P { d with details := setKey d.details "GST_Tax_Planning" (Value.str t) })
    (hMarital : hasSub n "trustname" = false → hasSub n "trusttype" = false → (hasSub n "effectivedate" || hasSub n "trustdate") = false → (hasSub n "grantor" || hasSub n "settlor" || hasSub n "trustor") = false → (hasSub n "trusteepowers" || hasSub n "trusteepower") = false → hasSub n "trustee" = false → hasSub n "beneficiar" = false → (hasSub n "purpose" || hasSub n "intent") = false → (hasSub n "howthetrustwork" || hasSub n "howthetrust" || hasSub n "operation") = false → hasSub n "distribution" = false → (hasSub n "power" || hasSub n "duties") = false → (hasSub n "amendment" || hasSub n "termination") = false → (hasSub n "special" && hasSub n "provision") = false → (hasSub n "taxid" || hasSub n "ein") = false → (hasSub n "stateofformation" || hasSub n "governinglaw") = false → hasSub n "trustprotector" = false → hasSub n "investmentadvisor" = false → hasSub n "distributionadvisor" = false → (hasSub n "gsttax" || hasSub n "gstplanning") = false → hasSub n "maritaldeduction" = true →
      P { d with details := setKey d.details "Marital_Deduction" (Value.str t) })
    (hLawFirm : hasSub n "trustname" = false → hasSub n "trusttype" = false → (hasSub n "effectivedate" || hasSub n "trustdate") = false → (hasSub n "grantor" || hasSub n "settlor" || hasSub n "trustor") = false → (hasSub n "trusteepowers" || hasSub n "trusteepower") = false → hasSub n "trustee" = false → hasSub n "beneficiar" = false → (hasSub n "purpose" || hasSub n "intent") = false → (hasSub n "howthetrustwork" || hasSub n "howthetrust" || hasSub n "operation") = false → hasSub n "distribution" = false → (hasSub n "power" || hasSub n "duties") = false → (hasSub n "amendment" || hasSub n "termination") = false → (hasSub n "special" && hasSub n "provision") = false → (hasSub n "taxid" || hasSub n "ein") = false → (hasSub n "stateofformation" || hasSub n "governinglaw") = false → hasSub n "trustprotector" = false → hasSub n "investmentadvisor" = false → hasSub n "distributionadvisor" = false → (hasSub n "gsttax" || hasSub n "gstplanning") = false → hasSub n "maritaldeduction" = false → hasSub n "lawfirm" = true →
      P { d with details := setKey d.details "Law_Firm" (Value.str t) })
    (hSitus : hasSub n "trustname" = false → hasSub n "trusttype" = false → (hasSub n "effectivedate" || hasSub n "trustdate") = false → (hasSub n "grantor" || hasSub n "settlor" || hasSub n "trustor") = false → (hasSub n "trusteepowers" || hasSub n "trusteepower") = false → hasSub n "trustee" = false → hasSub n "beneficiar" = false → (hasSub n "purpose" || hasSub n "intent") = false → (hasSub n "howthetrustwork" || hasSub n "howthetrust" || hasSub n "operation") = false → hasSub n "distribution" = false → (hasSub n "power" || hasSub n "duties") = false → (hasSub n "amendment" || hasSub n "termination") = false → (hasSub n "special" && hasSub n "provision") = false → (hasSub n "taxid" || hasSub n "ein") = false → (hasSub n "stateofformation" || hasSub n "governinglaw") = false → hasSub n "trustprotector" = false → hasSub n "investmentadvisor" = false → hasSub n "distributionadvisor" = false → (hasSub n "gsttax" || hasSub n "gstplanning") = false → hasSub n "maritaldeduction" = false → hasSub n "lawfirm" = false → (hasSub n "trustsitus" || hasSub n "situs") = true →
      P { d with details := setKey d.details "Trust_Situs" (Value.str t) })
    (hSpendthrift : hasSub n "trustname" = false → hasSub n "trusttype" = false → (hasSub n "effectivedate" || hasSub n "trustdate") = false → (hasSub n "grantor" || hasSub n "settlor" || hasSub n "trustor") = false → (hasSub n "trusteepowers" || hasSub n "trusteepower") = false → hasSub n "trustee" = false → hasSub n "beneficiar" = false → (hasSub n "purpose" || hasSub n "intent") = false → (hasSub n "howthetrustwork" || hasSub n "howthetrust" || hasSub n "operation") = false → hasSub n "distribution" = false → (hasSub n "power" || hasSub n "duties") = false → (hasSub n "amendment" || hasSub n "termination") = false → (hasSub n "special" && hasSub n "provision") = false → (hasSub n "taxid" || hasSub n "ein") = false → (hasSub n "stateofformation" || hasSub n "governinglaw") = false → hasSub n "trustprotector" = false → hasSub n "investmentadvisor" = false → hasSub n "distributionadvisor" = false → (hasSub n "gsttax" || hasSub n "gstplanning") = false → hasSub n "maritaldeduction" = false → hasSub n "lawfirm" = false → (hasSub n "trustsitus" || hasSub n "situs") = false → hasSub n "spendthrift" = true →
      P { d with details := setKey d.details "Spendthrift_Provision" (Value.str (if t = "" then "no" else "yes")) })
    (hNoContest : hasSub n "trustname" = false → hasSub n "trusttype" = false → (hasSub n "effectivedate" || hasSub n "trustdate") = false → (hasSub n "grantor" || hasSub n "settlor" || hasSub n "trustor") = false → (hasSub n "trusteepowers" || hasSub n "trusteepower") = false → hasSub n "trustee" = false → hasSub n "beneficiar" = false → (hasSub n "purpose" || hasSub n "intent") = false → (hasSub n "howthetrustwork" || hasSub n "howthetrust" || hasSub n "operation") = false → hasSub n "distribution" = false → (hasSub n "power" || hasSub n "duties") = false → (hasSub n "amendment" || hasSub n "termination") = false → (hasSub n "special" && hasSub n "provision") = false → (hasSub n "taxid" || hasSub n "ein") = false → (hasSub n "stateofformation" || hasSub n "governinglaw") = false → hasSub n "trustprotector" = false → hasSub n "investmentadvisor" = false → hasSub n "distributionadvisor" = false → (hasSub n "gsttax" || hasSub n "gstplanning") = false → hasSub n "maritaldeduction" = false → hasSub n "lawfirm" = false → (hasSub n "trustsitus" || hasSub n "situs") = false → hasSub n "spendthrift" = false → hasSub n "nocontest" = true →
      P { d with details := setKey d.details "No-Contest_Clause" (Value.str (if t = "" then "no" else "yes")) })
    (hRoleCatchall : hasSub n "trustname" = false → hasSub n "trusttype" = false → (hasSub n "effectivedate" || hasSub n "trustdate") = false → (hasSub n "grantor" || hasSub n "settlor" || hasSub n "trustor") = false → (hasSub n "trusteepowers" || hasSub n "trusteepower") = false → hasSub n "trustee" = false → hasSub n "beneficiar" = false → (hasSub n "purpose" || hasSub n "intent") = false → (hasSub n "howthetrustwork" || hasSub n "howthetrust" || hasSub n "operation") = false → hasSub n "distribution" = false → (hasSub n "power" || hasSub n "duties") = false → (hasSub n "amendment" || hasSub n "termination") = false → (hasSub n "special" && hasSub n "provision") = false → (hasSub n "taxid" || hasSub n "ein") = false → (hasSub n "stateofformation" || hasSub n "governinglaw") = false → hasSub n "trustprotector" = false → hasSub n "investmentadvisor" = false → hasSub n "distributionadvisor" = false → (hasSub n "gsttax" || hasSub n "gstplanning") = false → hasSub n "maritaldeduction" = false → hasSub n "lawfirm" = false → (hasSub n "trustsitus" || hasSub n "situs") = false → hasSub n "spendthrift" = false → hasSub n "nocontest" = false → (hasSub n "advisor" || hasSub n "adviser" || hasSub n "committee" || hasSub n "protector" || hasSub n "manager" || hasSub n "advocate" || hasSub n "guardian") = true →
      P { d with details := otherProvisionsInsert d.details c t })
    (hFallbackLong : hasSub n "trustname" = false → hasSub n "trusttype" = false → (hasSub n "effectivedate" || hasSub n "trustdate") = false → (hasSub n "grantor" || hasSub n "settlor" || hasSub n "trustor") = false → (hasSub n "trusteepowers" || hasSub n "trusteepower") = false → hasSub n "trustee" = false → hasSub n "beneficiar" = false → (hasSub n "purpose" || hasSub n "intent") = false → (hasSub n "howthetrustwork" || hasSub n "howthetrust" || hasSub n "operation") = false → hasSub n "distribution" = false → (hasSub n "power" || hasSub n "duties") = false → (hasSub n "amendment" || hasSub n "termination") = false → (hasSub n "special" && hasSub n "provision") = false → (hasSub n "taxid" || hasSub n "ein") = false → (hasSub n "stateofformation" || hasSub n "governinglaw") = false → hasSub n "trustprotector" = false → hasSub n "investmentadvisor" = false → hasSub n "distributionadvisor" = false → (hasSub n "gsttax" || hasSub n "gstplanning") = false → hasSub n "maritaldeduction" = false → hasSub n "lawfirm" = false → (hasSub n "trustsitus" || hasSub n "situs") = false → hasSub n "spendthrift" = false → hasSub n "nocontest" = false → (hasSub n "advisor" || hasSub n "adviser" || hasSub n "committee" || hasSub n "protector" || hasSub n "manager" || hasSub n "advocate" || hasSub n "guardian") = false → t.length > 100 →
      P { d with summary := otherSummaryInsert d.summary c t })
    (hFallbackShort : hasSub n "trustname" = false → hasSub n "trusttype" = false → (hasSub n "effectivedate" || hasSub n "trustdate") = false → (hasSub n "grantor" || hasSub n "settlor" || hasSub n "trustor") = false → (hasSub n "trusteepowers" || hasSub n "trusteepower") = false → hasSub n "trustee" = false → hasSub n "beneficiar" = false → (hasSub n "purpose" || hasSub n "intent") = false → (hasSub n "howthetrustwork" || hasSub n "howthetrust" || hasSub n "operation") = false → hasSub n "distribution" = false → (hasSub n "power" || hasSub n "duties") = false → (hasSub n "amendment" || hasSub n "termination") = false → (hasSub n "special" && hasSub n "provision") = false → (hasSub n "taxid" || hasSub n "ein") = false → (hasSub n "stateofformation" || hasSub n "governinglaw") = false → hasSub n "trustprotector" = false → hasSub n "investmentadvisor" = false → hasSub n "distributionadvisor" = false → (hasSub n "gsttax" || hasSub n "gstplanning") = false → hasSub n "maritaldeduction" = false → hasSub n "lawfirm" = false → (hasSub n "trustsitus" || hasSub n "situs") = false → hasSub n "spendthrift" = false → hasSub n "nocontest" = false → (hasSub n "advisor" || hasSub n "adviser" || hasSub n "committee" || hasSub n "protector" || hasSub n "manager" || hasSub n "advocate" || hasSub n "guardian") = false → ¬ (t.length > 100) →
      P { d with details := otherProvisionsInsert d.details c t })
    : P (applyRules n c t d) := by
  unfold applyRules
  exact
    iteP (fun hc1 => hTrustName hc1)
      (fun hn1 =>
        have hf1 : hasSub n "trustname" = false := bool_eq_false hn1
        iteP (fun hc2 => hTrustType hf1 hc2)
          (fun hn2 =>
            have hf2 : hasSub n "trusttype" = false := bool_eq_false hn2
            iteP (fun hc3 => hEffDate hf1 hf2 hc3)
              (fun hn3 =>
                have hf3 : (hasSub n "effectivedate" || hasSub n "trustdate") = false := bool_eq_false hn3
                iteP
                  (fun hc4 =>
                    iteP (fun hc4_1 => hGrantor hf1 hf2 hf3 hc4 hc4_1)
                      (fun hn4_1 =>
                        have hf4_1 : (!is_successor n) = false := bool_eq_false hn4_1
                        hGrantorSucc hf1 hf2 hf3 hc4 hf4_1))
                  (fun hn4 =>
                    have hf4 : (hasSub n "grantor" || hasSub n "settlor" || hasSub n "trustor") = false := bool_eq_false hn4
                    iteP (fun hc5 => hTrusteePowers hf1 hf2 hf3 hf4 hc5)
                      (fun hn5 =>
                        have hf5 : (hasSub n "trusteepowers" || hasSub n "trusteepower") = false := bool_eq_false hn5
                        iteP
                          (fun hc6 =>
                            iteP (fun hc6_1 => hTrusteeSpecial hf1 hf2 hf3 hf4 hf5 hc6 hc6_1)
                              (fun hn6_1 =>
                                have hf6_1 : (hasSub n "special" || hasSub n "committee") = false := bool_eq_false hn6_1
                                iteP (fun hc6_2 => hTrusteeSucc hf1 hf2 hf3 hf4 hf5 hc6 hf6_1 hc6_2)
                                  (fun hn6_2 =>
                                    have hf6_2 : is_successor n = false := bool_eq_false hn6_2
                                    hTrusteePlain hf1 hf2 hf3 hf4 hf5 hc6 hf6_1 hf6_2)))
                          (fun hn6 =>
                            have hf6 : hasSub n "trustee" = false := bool_eq_false hn6
                            iteP
                              (fun hc7 =>
                                iteP (fun hc7_1 => hBenLifetime hf1 hf2 hf3 hf4 hf5 hf6 hc7 hc7_1)
                                  (fun hn7_1 =>
                                    have hf7_1 : (is_lifetime n || hasSub n "duringgrantorslife") = false := bool_eq_false hn7_1
                                    iteP (fun hc7_2 => hBenContingent hf1 hf2 hf3 hf4 hf5 hf6 hc7 hf7_1 hc7_2)
                                      (fun hn7_2 =>
                                        have hf7_2 : (is_contingent n || hasSub n "remainder" || hasSub n "alternate") = false := bool_eq_false hn7_2
                                        iteP (fun hc7_3 => hBenPrimary hf1 hf2 hf3 hf4 hf5 hf6 hc7 hf7_1 hf7_2 hc7_3)
                                          (fun hn7_3 =>
                                            have hf7_3 : (hasSub n "primary" || is_initial n || hasSub n "upondeath") = false := bool_eq_false hn7_3
                                            hBenNone hf1 hf2 hf3 hf4 hf5 hf6 hc7 hf7_1 hf7_2 hf7_3))))
                              (fun hn7 =>
                                have hf7 : hasSub n "beneficiar" = false := bool_eq_false hn7
                                iteP (fun hc8 => hPurpose hf1 hf2 hf3 hf4 hf5 hf6 hf7 hc8)
                                  (fun hn8 =>
                                    have hf8 : (hasSub n "purpose" || hasSub n "intent") = false := bool_eq_false hn8
                                    iteP (fun hc9 => hHow hf1 hf2 hf3 hf4 hf5 hf6 hf7 hf8 hc9)
                                      (fun hn9 =>
                                        have hf9 : (hasSub n "howthetrustwork" || hasSub n "howthetrust" || hasSub n "operation") = false := bool_eq_false hn9
                                        iteP (fun hc10 => hDistribution hf1 hf2 hf3 hf4 hf5 hf6 hf7 hf8 hf9 hc10)
                                          (fun hn10 =>
                                            have hf10 : hasSub n "distribution" = false := bool_eq_false hn10
                                            iteP (fun hc11 => hPower hf1 hf2 hf3 hf4 hf5 hf6 hf7 hf8 hf9 hf10 hc11)
                                              (fun hn11 =>
                                                have hf11 : (hasSub n "power" || hasSub n "duties") = false := bool_eq_false hn11
                                                iteP (fun hc12 => hAmendment hf1 hf2 hf3 hf4 hf5 hf6 hf7 hf8 hf9 hf10 hf11 hc12)
                                                  (fun hn12 =>
                                                    have hf12 : (hasSub n "amendment" || hasSub n "termination") = false := bool_eq_false hn12
                                                    iteP (fun hc13 => hSpecialProv hf1 hf2 hf3 hf4 hf5 hf6 hf7 hf8 hf9 hf10 hf11 hf12 hc13)
                                                      (fun hn13 =>
                                                        have hf13 : (hasSub n "special" && hasSub n "provision") = false := bool_eq_false hn13
                                                        iteP (fun hc14 => hTaxId hf1 hf2 hf3 hf4 hf5 hf6 hf7 hf8 hf9 hf10 hf11 hf12 hf13 hc14)
                                                          (fun hn14 =>
                                                            have hf14 : (hasSub n "taxid" || hasSub n "ein") = false := bool_eq_false hn14
                                                            iteP (fun hc15 => hStateForm hf1 hf2 hf3 hf4 hf5 hf6 hf7 hf8 hf9 hf10 hf11 hf12 hf13 hf14 hc15)
                                                              (fun hn15 =>
                                                                have hf15 : (hasSub n "stateofformation" || hasSub n "governinglaw") = false := bool_eq_false hn15
                                                                iteP (fun hc16 => hProtector hf1 hf2 hf3 hf4 hf5 hf6 hf7 hf8 hf9 hf10 hf11 hf12 hf13 hf14 hf15 hc16)
                                                                  (fun hn16 =>
                                                                    have hf16 : hasSub n "trustprotector" = false := bool_eq_false hn16
                                                                    iteP (fun hc17 => hInvAdvisor hf1 hf2 hf3 hf4 hf5 hf6 hf7 hf8 hf9 hf10 hf11 hf12 hf13 hf14 hf15 hf16 hc17)
                                                                      (fun hn17 =>
                                                                        have hf17 : hasSub n "investmentadvisor" = false := bool_eq_false hn17
                                                                        iteP (fun hc18 => hDistAdvisor hf1 hf2 hf3 hf4 hf5 hf6 hf7 hf8 hf9 hf10 hf11 hf12 hf13 hf14 hf15 hf16 hf17 hc18)
                                                                          (fun hn18 =>
                                                                            have hf18 : hasSub n "distributionadvisor" = false := bool_eq_false hn18
                                                                            iteP (fun hc19 => hGst hf1 hf2 hf3 hf4 hf5 hf6 hf7 hf8 hf9 hf10 hf11 hf12 hf13 hf14 hf15 hf16 hf17 hf18 hc19)
                                                                              (fun hn19 =>
                                                                                have hf19 : (hasSub n "gsttax" || hasSub n "gstplanning") = false := bool_eq_false hn19
                                                                                iteP (fun hc20 => hMarital hf1 hf2 hf3 hf4 hf5 hf6 hf7 hf8 hf9 hf10 hf11 hf12 hf13 hf14 hf15 hf16 hf17 hf18 hf19 hc20)
                                                                                  (fun hn20 =>
                                                                                    have hf20 : hasSub n "maritaldeduction" = false := bool_eq_false hn20
                                                                                    iteP (fun hc21 => hLawFirm hf1 hf2 hf3 hf4 hf5 hf6 hf7 hf8 hf9 hf10 hf11 hf12 hf13 hf14 hf15 hf16 hf17 hf18 hf19 hf20 hc21)
                                                                                      (fun hn21 =>
                                                                                        have hf21 : hasSub n "lawfirm" = false := bool_eq_false hn21
                                                                                        iteP (fun hc22 => hSitus hf1 hf2 hf3 hf4 hf5 hf6 hf7 hf8 hf9 hf10 hf11 hf12 hf13 hf14 hf15 hf16 hf17 hf18 hf19 hf20 hf21 hc22)
                                                                                          (fun hn22 =>
                                                                                            have hf22 : (hasSub n "trustsitus" || hasSub n "situs") = false := bool_eq_false hn22
                                                                                            iteP (fun hc23 => hSpendthrift hf1 hf2 hf3 hf4 hf5 hf6 hf7 hf8 hf9 hf10 hf11 hf12 hf13 hf14 hf15 hf16 hf17 hf18 hf19 hf20 hf21 hf22 hc23)
                                                                                              (fun hn23 =>
                                                                                                have hf23 : hasSub n "spendthrift" = false := bool_eq_false hn23
                                                                                                iteP (fun hc24 => hNoContest hf1 hf2 hf3 hf4 hf5 hf6 hf7 hf8 hf9 hf10 hf11 hf12 hf13 hf14 hf15 hf16 hf17 hf18 hf19 hf20 hf21 hf22 hf23 hc24)
                                                                                                  (fun hn24 =>
                                                                                                    have hf24 : hasSub n "nocontest" = false := bool_eq_false hn24
                                                                                                    iteP (fun hc25 => hRoleCatchall hf1 hf2 hf3 hf4 hf5 hf6 hf7 hf8 hf9 hf10 hf11 hf12 hf13 hf14 hf15 hf16 hf17 hf18 hf19 hf20 hf21 hf22 hf23 hf24 hc25)
                                                                                                      (fun hn25 =>
                                                                                                        have hf25 : (hasSub n "advisor" || hasSub n "adviser" || hasSub n "committee" || hasSub n "protector" || hasSub n "manager" || hasSub n "advocate" || hasSub n "guardian") = false := bool_eq_false hn25
                                                                                                        iteP (fun hlen => hFallbackLong hf1 hf2 hf3 hf4 hf5 hf6 hf7 hf8 hf9 hf10 hf11 hf12 hf13 hf14 hf15 hf16 hf17 hf18 hf19 hf20 hf21 hf22 hf23 hf24 hf25 hlen)
                                                                                                          (fun hnlen => hFallbackShort hf1 hf2 hf3 hf4 hf5 hf6 hf7 hf8 hf9 hf10 hf11 hf12 hf13 hf14 hf15 hf16 hf17 hf18 hf19 hf20 hf21 hf22 hf23 hf24 hf25 hnlen))))))))))))))))))))))))))

/-- The classifier never touches the citation list. -/
theorem applyRules_citations (n c t : String) (d : StructuredDocument) :
    (applyRules n c t d).citations = d.citations := by
  apply applyRules_cases n c t d (fun x => x.citations = d.citations) <;> intros <;> rfl

theorem map_to_template_citations (class_name text : String) (d : StructuredDocument) :
    (map_to_template class_name text d).citations = d.citations :=
  applyRules_citations _ _ _ _

/-- One citation per span, in input order: the assembly loop starting from
any accumulator appends exactly the spans' citations. -/
theorem foldl_processExtraction_citations (spans : List ExtractionSpan) :
    ∀ d, (spans.foldl processExtraction d).citations = d.citations ++ spans.map citationOf := by
  induction spans with
  | nil => intro d; simp
  | cons e rest ih =>
      intro d
      simp [List.foldl_cons, processExtraction, ih, map_to_template_citations]

/-! ## Reach conditions: under which a span arrives at a given rule.
Each is the exact accumulated path condition of the source chain: every
earlier rule's test is false and the rule's own test is true. -/

abbrev ReachesGrantorList (n : String) : Prop :=
  hasSub n "trustname" = false ∧ hasSub n "trusttype" = false ∧
  hasSub n "effectivedate" = false ∧ hasSub n "trustdate" = false ∧
  (hasSub n "grantor" || hasSub n "settlor" || hasSub n "trustor") = true ∧
  is_successor n = false

abbrev GrantorHole (n : String) : Prop :=
  hasSub n "trustname" = false ∧ hasSub n "trusttype" = false ∧
  hasSub n "effectivedate" = false ∧ hasSub n "trustdate" = false ∧
  (hasSub n "grantor" || hasSub n "settlor" || hasSub n "trustor") = true ∧
  is_successor n = true

abbrev ReachesTrusteePowers (n : String) : Prop :=
  hasSub n "trustname" = false ∧ hasSub n "trusttype" = false ∧
  hasSub n "effectivedate" = false ∧ hasSub n "trustdate" = false ∧
  hasSub n "grantor" = false ∧ hasSub n "settlor" = false ∧ hasSub n "trustor" = false ∧
  (hasSub n "trusteepowers" || hasSub n "trusteepower") = true

abbrev ReachesSuccessorTrustee (n : String) : Prop :=
  hasSub n "trustname" = false ∧ hasSub n "trusttype" = false ∧
  hasSub n "effectivedate" = false ∧ hasSub n "trustdate" = false ∧
  hasSub n "grantor" = false ∧ hasSub n "settlor" = false ∧ hasSub n "trustor" = false ∧
  hasSub n "trusteepowers" = false ∧ hasSub n "trusteepower" = false ∧
  hasSub n "trustee" = true ∧
  hasSub n "special" = false ∧ hasSub n "committee" = false ∧
  is_successor n = true

abbrev ReachesPlainTrustee (n : String) : Prop :=
  hasSub n "trustname" = false ∧ hasSub n "trusttype" = false ∧
  hasSub n "effectivedate" = false ∧ hasSub n "trustdate" = false ∧
  hasSub n "grantor" = false ∧ hasSub n "settlor" = false ∧ hasSub n "trustor" = false ∧
  hasSub n "trusteepowers" = false ∧ hasSub n "trusteepower" = false ∧
  hasSub n "trustee" = true ∧
  hasSub n "special" = false ∧ hasSub n "committee" = false ∧
  is_successor n = false

abbrev ReachesLifetimeBeneficiary (n : String) : Prop :=
  hasSub n "trustname" = false ∧ hasSub n "trusttype" = false ∧
  hasSub n "effectivedate" = false ∧ hasSub n "trustdate" = false ∧
  hasSub n "grantor" = false ∧ hasSub n "settlor" = false ∧ hasSub n "trustor" = false ∧
  hasSub n "trusteepowers" = false ∧ hasSub n "trusteepower" = false ∧
  hasSub n "trustee" = false ∧
  hasSub n "beneficiar" = true ∧
  (is_lifetime n || hasSub n "duringgrantorslife") = true

abbrev ReachesContingentBeneficiary (n : String) : Prop :=
  hasSub n "trustname" = false ∧ hasSub n "trusttype" = false ∧
  hasSub n "effectivedate" = false ∧ hasSub n "trustdate" = false ∧
  hasSub n "grantor" = false ∧ hasSub n "settlor" = false ∧ hasSub n "trustor" = false ∧
  hasSub n "trusteepowers" = false ∧ hasSub n "trusteepower" = false ∧
  hasSub n "trustee" = false ∧
  hasSub n "beneficiar" = true ∧
  is_lifetime n = false ∧ hasSub n "duringgrantorslife" = false ∧
  (is_contingent n || hasSub n "remainder" || hasSub n "alternate") = true

abbrev BeneficiaryHole (n : String) : Prop :=
  hasSub n "trustname" = false ∧ hasSub n "trusttype" = false ∧
  hasSub n "effectivedate" = false ∧ hasSub n "trustdate" = false ∧
  hasSub n "grantor" = false ∧ hasSub n "settlor" = false ∧ hasSub n "trustor" = false ∧
  hasSub n "trusteepowers" = false ∧ hasSub n "trusteepower" = false ∧
  hasSub n "trustee" = false ∧
  hasSub n "beneficiar" = true ∧
  is_lifetime n = false ∧ hasSub n "duringgrantorslife" = false ∧
  is_contingent n = false ∧ hasSub n "remainder" = false ∧ hasSub n "alternate" = false ∧
  hasSub n "primary" = false ∧ is_initial n = false ∧ hasSub n "upondeath" = false

abbrev ReachesSpendthrift (n : String) : Prop :=
  hasSub n "trustname" = false ∧ hasSub n "trusttype" = false ∧
  hasSub n "effectivedate" = false ∧ hasSub n "trustdate" = false ∧
  hasSub n "grantor" = false ∧ hasSub n "settlor" = false ∧ hasSub n "trustor" = false ∧
  hasSub n "trusteepowers" = false ∧ hasSub n "trusteepower" = false ∧
  hasSub n "trustee" = false ∧
  hasSub n "beneficiar" = false ∧
  hasSub n "purpose" = false ∧ hasSub n "intent" = false ∧
  hasSub n "howthetrustwork" = false ∧ hasSub n "howthetrust" = false ∧
  hasSub n "operation" = false ∧
  hasSub n "distribution" = false ∧
  hasSub n "power" = false ∧ hasSub n "duties" = false ∧
  hasSub n "amendment" = false ∧ hasSub n "termination" = false ∧
  (hasSub n "special" && hasSub n "provision") = false ∧
  hasSub n "taxid" = false ∧ hasSub n "ein" = false ∧
  hasSub n "stateofformation" = false ∧ hasSub n "governinglaw" = false ∧
  hasSub n "trustprotector" = false ∧
  hasSub n "investmentadvisor" = false ∧
  hasSub n "distributionadvisor" = false ∧
  hasSub n "gsttax" = false ∧ hasSub n "gstplanning" = false ∧
  hasSub n "maritaldeduction" = false ∧
  hasSub n "lawfirm" = false ∧
  hasSub n "trustsitus" = false ∧ hasSub n "situs" = false ∧
  hasSub n "spendthrift" = true

abbrev ReachesNoContest (n : String) : Prop :=
  hasSub n "trustname" = false ∧ hasSub n "trusttype" = false ∧
  hasSub n "effectivedate" = false ∧ hasSub n "trustdate" = false ∧
  hasSub n "grantor" = false ∧ hasSub n "settlor" = false ∧ hasSub n "trustor" = false ∧
  hasSub n "trusteepowers" = false ∧ hasSub n "trusteepower" = false ∧
  hasSub n "trustee" = false ∧
  hasSub n "beneficiar" = false ∧
  hasSub n "purpose" = false ∧ hasSub n "intent" = false ∧
  hasSub n "howthetrustwork" = false ∧ hasSub n "howthetrust" = false ∧
  hasSub n "operation" = false ∧
  hasSub n "distribution" = false ∧
  hasSub n "power" = false ∧ hasSub n "duties" = false ∧
  hasSub n "amendment" = false ∧ hasSub n "termination" = false ∧
  (hasSub n "special" && hasSub n "provision") = false ∧
  hasSub n "taxid" = false ∧ hasSub n "ein" = false ∧
  hasSub n "stateofformation" = false ∧ hasSub n "governinglaw" = false ∧
  hasSub n "trustprotector" = false ∧
  hasSub n "investmentadvisor" = false ∧
  hasSub n "distributionadvisor" = false ∧
  hasSub n "gsttax" = false ∧ hasSub n "gstplanning" = false ∧
  hasSub n "maritaldeduction" = false ∧
  hasSub n "lawfirm" = false ∧
  hasSub n "trustsitus" = false ∧ hasSub n "situs" = false ∧
  hasSub n "spendthrift" = false ∧
  hasSub n "nocontest" = true

abbrev NoRuleMatches (n : String) : Prop :=
  hasSub n "trustname" = false ∧ hasSub n "trusttype" = false ∧
  hasSub n "effectivedate" = false ∧ hasSub n "trustdate" = false ∧
  hasSub n "grantor" = false ∧ hasSub n "settlor" = false ∧ hasSub n "trustor" = false ∧
  hasSub n "trusteepowers" = false ∧ hasSub n "trusteepower" = false ∧
  hasSub n "trustee" = false ∧
  hasSub n "beneficiar" = false ∧
  hasSub n "purpose" = false ∧ hasSub n "intent" = false ∧
  hasSub n "howthetrustwork" = false ∧ hasSub n "howthetrust" = false ∧
  hasSub n "operation" = false ∧
  hasSub n "distribution" = false ∧
  hasSub n "power" = false ∧ hasSub n "duties" = false ∧
  hasSub n "amendment" = false ∧ hasSub n "termination" = false ∧
  (hasSub n "special" && hasSub n "provision") = false ∧
  hasSub n "taxid" = false ∧ hasSub n "ein" = false ∧
  hasSub n "stateofformation" = false ∧ hasSub n "governinglaw" = false ∧
  hasSub n "trustprotector" = false ∧
  hasSub n "investmentadvisor" = false ∧
  hasSub n "distributionadvisor" = false ∧
  hasSub n "gsttax" = false ∧ hasSub n "gstplanning" = false ∧
  hasSub n "maritaldeduction" = false ∧
  hasSub n "lawfirm" = false ∧
  hasSub n "trustsitus" = false ∧ hasSub n "situs" = false ∧
  hasSub n "spendthrift" = false ∧
  hasSub n "nocontest" = false ∧
  hasSub n "advisor" = false ∧ hasSub n "adviser" = false ∧
  hasSub n "committee" = false ∧ hasSub n "protector" = false ∧
  hasSub n "manager" = false ∧ hasSub n "advocate" = false ∧
  hasSub n "guardian" = false

/-! ## Branch lemmas: what the chain does when control reaches each rule -/

theorem applyRules_grantor (n c t : String) (d : StructuredDocument)
    (h : ReachesGrantorList n) :
    applyRules n c t d
      = { d with basic_information := appendToListField d.basic_information "Grantor(s)" t } := by
  apply applyRules_cases n c t d
      (fun x => x = { d with basic_information := appendToListField d.basic_information "Grantor(s)" t }) <;>
    intros <;> first | rfl | simp_all

theorem applyRules_grantor_hole (n c t : String) (d : StructuredDocument)
    (h : GrantorHole n) : applyRules n c t d = d := by
  apply applyRules_cases n c t d (fun x => x = d) <;> intros <;> first | rfl | simp_all

theorem applyRules_trustee_powers (n c t : String) (d : StructuredDocument)
    (h : ReachesTrusteePowers n) :
    applyRules n c t d
      = { d with summary := scalarAppendField d.summary "Trustee_Powers_and_Duties" t } := by
  apply applyRules_cases n c t d
      (fun x => x = { d with summary := scalarAppendField d.summary "Trustee_Powers_and_Duties" t }) <;>
    intros <;> first | rfl | simp_all

theorem applyRules_successor_trustee (n c t : String) (d : StructuredDocument)
    (h : ReachesSuccessorTrustee n) :
    applyRules n c t d
      = { d with basic_information := appendToListField d.basic_information "Successor_Trustee(s)" t } := by
  apply applyRules_cases n c t d
      (fun x => x = { d with basic_information := appendToListField d.basic_information "Successor_Trustee(s)" t }) <;>
    intros <;> first | rfl | simp_all

theorem applyRules_plain_trustee (n c t : String) (d : StructuredDocument)
    (h : ReachesPlainTrustee n) :
    applyRules n c t d
      = { d with basic_information := appendToListField d.basic_information "Trustee(s)" t } := by
  apply applyRules_cases n c t d
      (fun x => x = { d with basic_information := appendToListField d.basic_information "Trustee(s)" t }) <;>
    intros <;> first | rfl | simp_all

theorem applyRules_lifetime_beneficiary (n c t : String) (d : StructuredDocument)
    (h : ReachesLifetimeBeneficiary n) :
    applyRules n c t d
      = { d with basic_information := appendToListField d.basic_information "Primary_Beneficiaries" t } := by
  apply applyRules_cases n c t d
      (fun x => x = { d with basic_information := appendToListField d.basic_information "Primary_Beneficiaries" t }) <;>
    intros <;> first | rfl | simp_all

theorem applyRules_contingent_beneficiary (n c t : String) (d : StructuredDocument)
    (h : ReachesContingentBeneficiary n) :
    applyRules n c t d
      = { d with basic_information := appendToListField d.basic_information "Contingent_Beneficiaries" t } := by
  apply applyRules_cases n c t d
      (fun x => x = { d with basic_information := appendToListField d.basic_information "Contingent_Beneficiaries" t }) <;>
    intros <;> first | rfl | simp_all

theorem applyRules_beneficiary_hole (n c t : String) (d : StructuredDocument)
    (h : BeneficiaryHole n) : applyRules n c t d = d := by
  apply applyRules_cases n c t d (fun x => x = d) <;> intros <;> first | rfl | simp_all

theorem applyRules_spendthrift (n c t : String) (d : StructuredDocument)
    (h : ReachesSpendthrift n) :
    applyRules n c t d
      = { d with details := setKey d.details "Spendthrift_Provision" (Value.str (if t = "" then "no" else "yes")) } := by
  apply applyRules_cases n c t d
      (fun x => x = { d with details := setKey d.details "Spendthrift_Provision" (Value.str (if t = "" then "no" else "yes")) }) <;>
    intros <;> first | rfl | simp_all

theorem applyRules_nocontest (n c t : String) (d : StructuredDocument)
    (h : ReachesNoContest n) :
    applyRules n c t d
      = { d with details := setKey d.details "No-Contest_Clause" (Value.str (if t = "" then "no" else "yes")) } := by
  apply applyRules_cases n c t d
      (fun x => x = { d with details := setKey d.details "No-Contest_Clause" (Value.str (if t = "" then "no" else "yes")) }) <;>
    intros <;> first | rfl | simp_all

theorem applyRules_fallback_long (n c t : String) (d : StructuredDocument)
    (h : NoRuleMatches n) (hlen : t.length > 100) :
    applyRules n c t d = { d with summary := otherSummaryInsert d.summary c t } := by
  apply applyRules_cases n c t d
      (fun x => x = { d with summary := otherSummaryInsert d.summary c t }) <;>
    intros <;> first | rfl | simp_all

theorem applyRules_fallback_short (n c t : String) (d : StructuredDocument)
    (h : NoRuleMatches n) (hlen : ¬ (t.length > 100)) :
    applyRules n c t d = { d with details := otherProvisionsInsert d.details c t } := by
  apply applyRules_cases n c t d
      (fun x => x = { d with details := otherProvisionsInsert d.details c t }) <;>
    intros <;> first | rfl | simp_all

/-- No rule reachable by a label containing "trusteepower" writes either
trustee-role list. -/
theorem applyRules_trusteepower_no_role_list (n c t : String) (d : StructuredDocument)
    (h : hasSub n "trusteepower" = true) :
    lookupS (applyRules n c t d).basic_information "Trustee(s)"
        = lookupS d.basic_information "Trustee(s)" ∧
      lookupS (applyRules n c t d).basic_information "Successor_Trustee(s)"
        = lookupS d.basic_information "Successor_Trustee(s)" := by
  apply applyRules_cases n c t d
      (fun x => lookupS x.basic_information "Trustee(s)" = lookupS d.basic_information "Trustee(s)" ∧
        lookupS x.basic_information "Successor_Trustee(s)"
          = lookupS d.basic_information "Successor_Trustee(s)") <;>
    intros <;>
    first
      | exact ⟨rfl, rfl⟩
      | exact ⟨lookupS_setKey_ne _ (by decide) _, lookupS_setKey_ne _ (by decide) _⟩
      | exact ⟨lookupS_appendToListField_ne _ (by decide) _,
          lookupS_appendToListField_ne _ (by decide) _⟩
      | simp_all

/-- A span that does not match the spendthrift rule — whatever other branch
consumes it — never writes Spendthrift_Provision.  The spendthrift branch is
refuted because its accumulated path condition is exactly ReachesSpendthrift. -/
theorem applyRules_spendthrift_unreached (n c t : String) (d : StructuredDocument)
    (h : ¬ ReachesSpendthrift n) :
    lookupS (applyRules n c t d).details "Spendthrift_Provision"
      = lookupS d.details "Spendthrift_Provision" := by
  apply applyRules_cases n c t d
    (fun x => lookupS x.details "Spendthrift_Provision" = lookupS d.details "Spendthrift_Provision") <;> intros <;>
    first
      | rfl
      | exact lookupS_setKey_ne _ (by decide) _
      | exact lookupS_otherProvisionsInsert_ne _ (by decide) _ _
      | simp_all [ReachesSpendthrift]

/-- A span that does not match the no-contest rule never writes
No-Contest_Clause. -/
theorem applyRules_nocontest_unreached (n c t : String) (d : StructuredDocument)
    (h : ¬ ReachesNoContest n) :
    lookupS (applyRules n c t d).details "No-Contest_Clause"
      = lookupS d.details "No-Contest_Clause" := by
  apply applyRules_cases n c t d
    (fun x => lookupS x.details "No-Contest_Clause" = lookupS d.details "No-Contest_Clause") <;> intros <;>
    first
      | rfl
      | exact lookupS_setKey_ne _ (by decide) _
      | exact lookupS_otherProvisionsInsert_ne _ (by decide) _ _
      | simp_all [ReachesNoContest]

/-- Projection forms of fill_missing_fields, for rewriting without
unfolding. -/
theorem fill_missing_fields_basic (doc : StructuredDocument) (tmpl : Template) (dv : String) :
    (fill_missing_fields doc tmpl dv).basic_information
      = fillSection (basicDefault dv) tmpl.basic_information doc.basic_information := rfl

theorem fill_missing_fields_summary (doc : StructuredDocument) (tmpl : Template) (dv : String) :
    (fill_missing_fields doc tmpl dv).summary
      = fillSection (summaryDefault dv) tmpl.summary doc.summary := rfl

theorem fill_missing_fields_details (doc : StructuredDocument) (tmpl : Template) (dv : String) :
    (fill_missing_fields doc tmpl dv).details
      = fillSection (detailsDefault dv) tmpl.details doc.details := rfl

/-! ## Assembly-level lemmas -/

/-- If no span matches the spendthrift rule, assembly never creates
Spendthrift_Provision. -/
theorem foldl_spendthrift_none (spans : List ExtractionSpan)
    (h : ∀ s ∈ spans, ¬ ReachesSpendthrift (normalizeLabel s.extraction_class)) :
    ∀ d : StructuredDocument, lookupS d.details "Spendthrift_Provision" = none →
      lookupS (spans.foldl processExtraction d).details "Spendthrift_Provision" = none := by
  induction spans with
  | nil => intro d hd; exact hd
  | cons e rest ih =>
      intro d hd
      rw [List.foldl_cons]
      apply ih (fun s hs => h s (List.mem_cons_of_mem _ hs))
      have he := h e (List.mem_cons_self e rest)
      have hfree := applyRules_spendthrift_unreached (normalizeLabel e.extraction_class)
        e.extraction_class e.extraction_text
        { d with citations := d.citations ++ [citationOf e] } he
      rw [show (processExtraction d e).details
            = (applyRules (normalizeLabel e.extraction_class) e.extraction_class
                e.extraction_text { d with citations := d.citations ++ [citationOf e] }).details
          from rfl]
      rw [hfree]
      exact hd

/-- If no span matches the no-contest rule, assembly never creates
No-Contest_Clause. -/
theorem foldl_nocontest_none (spans : List ExtractionSpan)
    (h : ∀ s ∈ spans, ¬ ReachesNoContest (normalizeLabel s.extraction_class)) :
    ∀ d : StructuredDocument, lookupS d.details "No-Contest_Clause" = none →
      lookupS (spans.foldl processExtraction d).details "No-Contest_Clause" = none := by
  induction spans with
  | nil => intro d hd; exact hd
  | cons e rest ih =>
      intro d hd
      rw [List.foldl_cons]
      apply ih (fun s hs => h s (List.mem_cons_of_mem _ hs))
      have he := h e (List.mem_cons_self e rest)
      have hfree := applyRules_nocontest_unreached (normalizeLabel e.extraction_class)
        e.extraction_class e.extraction_text
        { d with citations := d.citations ++ [citationOf e] } he
      rw [show (processExtraction d e).details
            = (applyRules (normalizeLabel e.extraction_class) e.extraction_class
                e.extraction_text { d with citations := d.citations ++ [citationOf e] }).details
          from rfl]
      rw [hfree]
      exact hd

/-- Pushing the same text twice into an empty list field keeps one entry;
pushing two distinct texts keeps both in input order. -/
theorem appendToListField_twice (F t t' : String) (hne : t ≠ t') :
    lookupS (appendToListField (appendToListField [] F t) F t) F = some (Value.list [t]) ∧
    lookupS (appendToListField (appendToListField [] F t) F t') F = some (Value.list [t, t']) := by
  have hne' : t' ≠ t := Ne.symm hne
  constructor <;> simp [appendToListField, appendUnique, lookupS, setKey, hne']

/-! ## Claim theorems -/

/-- C1, counterexample: the label "successor_grantor" matches the
grantor/settlor/trustor rule with a successor modifier, and the span is
consumed with no schema write at all — only its citation is recorded,
refuting "the classifier maps the span into some schema target" for every
span. -/
theorem c1_counterexample :
    (assembleSpans [⟨"successor_grantor", "Jane Doe", none⟩]).basic_information = [] ∧
    (assembleSpans [⟨"successor_grantor", "Jane Doe", none⟩]).summary = [] ∧
    (assembleSpans [⟨"successor_grantor", "Jane Doe", none⟩]).details = [] ∧
    (assembleSpans [⟨"successor_grantor", "Jane Doe", none⟩]).citations
      = [⟨"successor_grantor", "Jane Doe", 0, 8⟩] := by
  decide

/-- C1, amended: assembly records every span in the citation list, one
citation per span in input order; but the classifier is not total — a span
whose label reaches the grantor/settlor/trustor rule carrying a successor
modifier produces no schema write (the document is returned unchanged). -/
theorem c1_amended_theorem :
    (∀ spans : List ExtractionSpan, (assembleSpans spans).citations = spans.map citationOf) ∧
    (∀ label text : String, ∀ doc : StructuredDocument,
      GrantorHole (normalizeLabel label) → map_to_template label text doc = doc) := by
  constructor
  · intro spans
    simpa [assembleSpans, emptyDocument] using foldl_processExtraction_citations spans emptyDocument
  · intro label text doc h
    exact applyRules_grantor_hole (normalizeLabel label) label text doc h

/-- C1, witness for the amended theorem at concrete inputs. -/
theorem c1_amended_witness :
    (assembleSpans [⟨"grantor", "Jane", none⟩]).citations
        = [citationOf ⟨"grantor", "Jane", none⟩] ∧
      map_to_template "successor_settlor" "John" emptyDocument = emptyDocument := by
  constructor
  · have h := c1_amended_theorem.1 [⟨"grantor", "Jane", none⟩]
    simpa using h
  · exact c1_amended_theorem.2 "successor_settlor" "John" emptyDocument (by decide)

/-- C2, counterexample: the label "beneficiary" matches the beneficiary
umbrella but none of its three sub-branches; the chain consumes it and the
document is unchanged — the span does not fall through to any later rule and
receives no mapping. -/
theorem c2_counterexample :
    map_to_template "beneficiary" "Mary Roe" emptyDocument = emptyDocument := by
  decide

/-- C2, amended: a span whose normalized key contains "beneficiar" but
matches none of the three beneficiary sub-branches does not fall through to
the later rules — the beneficiary rule consumes it and the span receives no
mapping: the document is returned unchanged. -/
theorem c2_amended_theorem :
    ∀ label text : String, ∀ doc : StructuredDocument,
      BeneficiaryHole (normalizeLabel label) → map_to_template label text doc = doc := by
  intro label text doc h
  exact applyRules_beneficiary_hole (normalizeLabel label) label text doc h

/-- C2, witness for the amended theorem at a concrete input. -/
theorem c2_amended_witness :
    map_to_template "beneficiaries" "Bob" emptyDocument = emptyDocument :=
  c2_amended_theorem "beneficiaries" "Bob" emptyDocument (by decide)

/-- C3, counterexample: "powers_of_trustee" normalizes to a key containing
both "trustee" and "powers", yet it resolves to the Trustee(s) role list and
writes nothing to Summary — the rule tests the contiguous substring
"trusteepower", not the two words separately. -/
theorem c3_counterexample :
    hasSub (normalizeLabel "powers_of_trustee") "trustee" = true ∧
    hasSub (normalizeLabel "powers_of_trustee") "powers" = true ∧
    (map_to_template "powers_of_trustee" "manage assets" emptyDocument).basic_information
      = [("Trustee(s)", Value.list ["manage assets"])] ∧
    (map_to_template "powers_of_trustee" "manage assets" emptyDocument).summary = [] := by
  decide

/-- C3, amended: a label whose normalized key contains the contiguous
substring "trusteepower" and matches none of the earlier rules resolves to
the Summary narrative field Trustee_Powers_and_Duties (scalar append); and
no label containing "trusteepower" ever writes either trustee-role list. -/
theorem c3_amended_theorem :
    (∀ label text : String, ∀ doc : StructuredDocument,
      ReachesTrusteePowers (normalizeLabel label) →
        map_to_template label text doc
          = { doc with summary := scalarAppendField doc.summary "Trustee_Powers_and_Duties" text }) ∧
    (∀ label text : String, ∀ doc : StructuredDocument,
      hasSub (normalizeLabel label) "trusteepower" = true →
        lookupS (map_to_template label text doc).basic_information "Trustee(s)"
            = lookupS doc.basic_information "Trustee(s)" ∧
          lookupS (map_to_template label text doc).basic_information "Successor_Trustee(s)"
            = lookupS doc.basic_information "Successor_Trustee(s)") := by
  constructor
  · intro label text doc h
    exact applyRules_trustee_powers (normalizeLabel label) label text doc h
  · intro label text doc h
    exact applyRules_trusteepower_no_role_list (normalizeLabel label) label text doc h

/-- C3, witness for the amended theorem at a concrete input. -/
theorem c3_amended_witness :
    map_to_template "trustee_powers" "invest" emptyDocument
        = { emptyDocument with
              summary := scalarAppendField emptyDocument.summary "Trustee_Powers_and_Duties" "invest" } ∧
      lookupS (map_to_template "trustee_powers" "invest" emptyDocument).basic_information "Trustee(s)"
        = lookupS emptyDocument.basic_information "Trustee(s)" :=
  ⟨c3_amended_theorem.1 "trustee_powers" "invest" emptyDocument (by decide),
   (c3_amended_theorem.2 "trustee_powers" "invest" emptyDocument (by decide)).1⟩

/-- C4: a span matching no rule routes by text length — strictly more than
100 characters to the Summary open-map fallback, otherwise to the Details
open-map fallback, keyed by the original label in both cases. -/
theorem c4_fallback_routing :
    ∀ label text : String, ∀ doc : StructuredDocument,
      NoRuleMatches (normalizeLabel label) →
        map_to_template label text doc
          = if text.length > 100 then { doc with summary := otherSummaryInsert doc.summary label text }
            else { doc with details := otherProvisionsInsert doc.details label text } := by
  intro label text doc h
  by_cases hlen : text.length > 100
  · rw [if_pos hlen]
    exact applyRules_fallback_long (normalizeLabel label) label text doc h hlen
  · rw [if_neg hlen]
    exact applyRules_fallback_short (normalizeLabel label) label text doc h hlen

set_option maxRecDepth 40000 in
/-- C4, witness: an unrecognized label with a 150-character text goes to the
Summary fallback; with a 20-character text it goes to the Details fallback. -/
theorem c4_fallback_routing_witness :
    map_to_template "xyz" (String.mk (List.replicate 150 'a')) emptyDocument
        = { emptyDocument with
              summary := otherSummaryInsert emptyDocument.summary "xyz" (String.mk (List.replicate 150 'a')) } ∧
      map_to_template "xyz" (String.mk (List.replicate 20 'b')) emptyDocument
        = { emptyDocument with
              details := otherProvisionsInsert emptyDocument.details "xyz" (String.mk (List.replicate 20 'b')) } := by
  constructor
  · have h := c4_fallback_routing "xyz" (String.mk (List.replicate 150 'a')) emptyDocument (by decide)
    rw [h, if_pos (by decide)]
  · have h := c4_fallback_routing "xyz" (String.mk (List.replicate 20 'b')) emptyDocument (by decide)
    rw [h, if_neg (by decide)]

/-- C5, counterexample: defaults are chosen by section, not by declared
kind — a field declared 'yes_no' in Basic_Information is filled with the
caller's default value, not with "no", refuting kind-appropriate defaulting
over arbitrary schemas. -/
theorem c5_counterexample :
    lookupS (fill_missing_fields emptyDocument
        ⟨[("Revocable", FieldSpec.strSpec "yes_no")], [], []⟩ "Not specified").basic_information
        "Revocable" = some (Value.str "Not specified") ∧
      Value.str "Not specified" ≠ Value.str "no" := by
  decide

/-- C5, amended: after fillDefaults every declared field is present (for any
span sequence and any schema), and a field absent from the assembled document
is filled by section-local rules — Basic_Information: list-declared fields
get an empty list, all others the default value; Summary: the field named
Other_Summary_Provisions gets an empty map, all others the default value;
Details: the field named Other_Provisions gets an empty map, fields declared
'yes_no' get "no", all others the default value. -/
theorem c5_amended_theorem :
    (∀ (spans : List ExtractionSpan) (tmpl : Template) (dv f : String) (spec : FieldSpec),
      (f, spec) ∈ tmpl.basic_information →
        (lookupS (fill_missing_fields (assembleSpans spans) tmpl dv).basic_information f).isSome
          = true) ∧
    (∀ (spans : List ExtractionSpan) (tmpl : Template) (dv f : String) (spec : FieldSpec),
      (f, spec) ∈ tmpl.summary →
        (lookupS (fill_missing_fields (assembleSpans spans) tmpl dv).summary f).isSome = true) ∧
    (∀ (spans : List ExtractionSpan) (tmpl : Template) (dv f : String) (spec : FieldSpec),
      (f, spec) ∈ tmpl.details →
        (lookupS (fill_missing_fields (assembleSpans spans) tmpl dv).details f).isSome = true) ∧
    (∀ (doc : StructuredDocument) (tmpl : Template) (dv f : String) (spec : FieldSpec),
      (f, spec) ∈ tmpl.basic_information → (tmpl.basic_information.map Prod.fst).Nodup →
        lookupS doc.basic_information f = none →
          lookupS (fill_missing_fields doc tmpl dv).basic_information f
            = some (basicDefault dv f spec)) ∧
    (∀ (doc : StructuredDocument) (tmpl : Template) (dv f : String) (spec : FieldSpec),
      (f, spec) ∈ tmpl.summary → (tmpl.summary.map Prod.fst).Nodup →
        lookupS doc.summary f = none →
          lookupS (fill_missing_fields doc tmpl dv).summary f = some (summaryDefault dv f spec)) ∧
    (∀ (doc : StructuredDocument) (tmpl : Template) (dv f : String) (spec : FieldSpec),
      (f, spec) ∈ tmpl.details → (tmpl.details.map Prod.fst).Nodup →
        lookupS doc.details f = none →
          lookupS (fill_missing_fields doc tmpl dv).details f = some (detailsDefault dv f spec)) := by
  refine ⟨?_, ?_, ?_, ?_, ?_, ?_⟩
  · intro spans tmpl dv f spec hmem
    exact fillSection_mem_isSome (basicDefault dv) tmpl.basic_information hmem _
  · intro spans tmpl dv f spec hmem
    exact fillSection_mem_isSome (summaryDefault dv) tmpl.summary hmem _
  · intro spans tmpl dv f spec hmem
    exact fillSection_mem_isSome (detailsDefault dv) tmpl.details hmem _
  · intro doc tmpl dv f spec hmem hnodup hnone
    exact fillSection_fills (basicDefault dv) tmpl.basic_information hmem hnodup _ hnone
  · intro doc tmpl dv f spec hmem hnodup hnone
    exact fillSection_fills (summaryDefault dv) tmpl.summary hmem hnodup _ hnone
  · intro doc tmpl dv f spec hmem hnodup hnone
    exact fillSection_fills (detailsDefault dv) tmpl.details hmem hnodup _ hnone

/-- C5, witness for the amended theorem at concrete inputs over the trust
template. -/
theorem c5_amended_witness :
    (lookupS (fill_missing_fields (assembleSpans []) trustTemplate "Not specified").basic_information
        "Trust_Name").isSome = true ∧
      lookupS (fill_missing_fields emptyDocument trustTemplate "Not specified").basic_information
          "Grantor(s)" = some (basicDefault "Not specified" "Grantor(s)" FieldSpec.listSpec) ∧
      lookupS (fill_missing_fields emptyDocument trustTemplate "Not specified").summary
          "Other_Summary_Provisions"
        = some (summaryDefault "Not specified" "Other_Summary_Provisions" (FieldSpec.strSpec "map")) ∧
      lookupS (fill_missing_fields emptyDocument trustTemplate "Not specified").details
          "Spendthrift_Provision"
        = some (detailsDefault "Not specified" "Spendthrift_Provision" (FieldSpec.strSpec "yes_no")) :=
  ⟨c5_amended_theorem.1 [] trustTemplate "Not specified" "Trust_Name" (FieldSpec.strSpec "text")
      (by decide),
   c5_amended_theorem.2.2.2.1 emptyDocument trustTemplate "Not specified" "Grantor(s)"
      FieldSpec.listSpec (by decide) (by decide) rfl,
   c5_amended_theorem.2.2.2.2.1 emptyDocument trustTemplate "Not specified"
      "Other_Summary_Provisions" (FieldSpec.strSpec "map") (by decide) (by decide) rfl,
   c5_amended_theorem.2.2.2.2.2 emptyDocument trustTemplate "Not specified"
      "Spendthrift_Provision" (FieldSpec.strSpec "yes_no") (by decide) (by decide) rfl⟩

/-- C6: fillDefaults never changes a field already present (in any of the
three sections, including one holding an empty list or map), and applying it
twice yields the same document as applying it once. -/
theorem c6_idempotent_defaulting :
    (∀ (doc : StructuredDocument) (tmpl : Template) (dv f : String) (v : Value),
      lookupS doc.basic_information f = some v →
        lookupS (fill_missing_fields doc tmpl dv).basic_information f = some v) ∧
    (∀ (doc : StructuredDocument) (tmpl : Template) (dv f : String) (v : Value),
      lookupS doc.summary f = some v →
        lookupS (fill_missing_fields doc tmpl dv).summary f = some v) ∧
    (∀ (doc : StructuredDocument) (tmpl : Template) (dv f : String) (v : Value),
      lookupS doc.details f = some v →
        lookupS (fill_missing_fields doc tmpl dv).details f = some v) ∧
    (∀ (doc : StructuredDocument) (tmpl : Template) (dv : String),
      fill_missing_fields (fill_missing_fields doc tmpl dv) tmpl dv
        = fill_missing_fields doc tmpl dv) := by
  refine ⟨?_, ?_, ?_, ?_⟩
  · intro doc tmpl dv f v h
    exact fillSection_preserves_some (basicDefault dv) tmpl.basic_information _ h
  · intro doc tmpl dv f v h
    exact fillSection_preserves_some (summaryDefault dv) tmpl.summary _ h
  · intro doc tmpl dv f v h
    exact fillSection_preserves_some (detailsDefault dv) tmpl.details _ h
  · intro doc tmpl dv
    simp [fill_missing_fields, fillSection_idem]

/-- C6, witness: a populated scalar and an explicitly empty list survive the
fill unchanged. -/
theorem c6_witness :
    lookupS (fill_missing_fields ⟨[("Trust_Name", Value.str "T")], [], [], []⟩ trustTemplate
        "Not specified").basic_information "Trust_Name" = some (Value.str "T") ∧
      lookupS (fill_missing_fields ⟨[("Grantor(s)", Value.list [])], [], [], []⟩ trustTemplate
        "Not specified").basic_information "Grantor(s)" = some (Value.list []) :=
  ⟨c6_idempotent_defaulting.1 ⟨[("Trust_Name", Value.str "T")], [], [], []⟩ trustTemplate
      "Not specified" "Trust_Name" (Value.str "T") rfl,
   c6_idempotent_defaulting.1 ⟨[("Grantor(s)", Value.list [])], [], [], []⟩ trustTemplate
      "Not specified" "Grantor(s)" (Value.list []) rfl⟩

/-- C7: for each of the five list-kind fields (reached here through a
representative label for each), appending the identical text twice leaves a
single entry, and appending two distinct texts keeps both in first-seen
order — the comparison is exact whole-string equality. -/
theorem c7_list_dedup :
    ∀ t t' : String, t ≠ t' →
      ∀ label field : String,
        (label, field) ∈ [("grantor", "Grantor(s)"), ("trustee", "Trustee(s)"),
            ("successor_trustee", "Successor_Trustee(s)"),
            ("lifetime_beneficiary", "Primary_Beneficiaries"),
            ("contingent_beneficiary", "Contingent_Beneficiaries")] →
          lookupS (map_to_template label t (map_to_template label t emptyDocument)).basic_information
              field = some (Value.list [t]) ∧
            lookupS (map_to_template label t' (map_to_template label t emptyDocument)).basic_information
              field = some (Value.list [t, t']) := by
  intro t t' hne label field hmem
  fin_cases hmem
  · have e2 : ∀ d : StructuredDocument, map_to_template "grantor" t d
        = { d with basic_information := appendToListField d.basic_information "Grantor(s)" t } :=
      fun d => applyRules_grantor _ _ _ d (by decide)
    have e3 : ∀ d : StructuredDocument, map_to_template "grantor" t' d
        = { d with basic_information := appendToListField d.basic_information "Grantor(s)" t' } :=
      fun d => applyRules_grantor _ _ _ d (by decide)
    simp only [e2, e3]
    exact appendToListField_twice "Grantor(s)" t t' hne
  · have e2 : ∀ d : StructuredDocument, map_to_template "trustee" t d
        = { d with basic_information := appendToListField d.basic_information "Trustee(s)" t } :=
      fun d => applyRules_plain_trustee _ _ _ d (by decide)
    have e3 : ∀ d : StructuredDocument, map_to_template "trustee" t' d
        = { d with basic_information := appendToListField d.basic_information "Trustee(s)" t' } :=
      fun d => applyRules_plain_trustee _ _ _ d (by decide)
    simp only [e2, e3]
    exact appendToListField_twice "Trustee(s)" t t' hne
  · have e2 : ∀ d : StructuredDocument, map_to_template "successor_trustee" t d
        = { d with basic_information := appendToListField d.basic_information "Successor_Trustee(s)" t } :=
      fun d => applyRules_successor_trustee _ _ _ d (by decide)
    have e3 : ∀ d : StructuredDocument, map_to_template "successor_trustee" t' d
        = { d with basic_information := appendToListField d.basic_information "Successor_Trustee(s)" t' } :=
      fun d => applyRules_successor_trustee _ _ _ d (by decide)
    simp only [e2, e3]
    exact appendToListField_twice "Successor_Trustee(s)" t t' hne
  · have e2 : ∀ d : StructuredDocument, map_to_template "lifetime_beneficiary" t d
        = { d with basic_information := appendToListField d.basic_information "Primary_Beneficiaries" t } :=
      fun d => applyRules_lifetime_beneficiary _ _ _ d (by decide)
    have e3 : ∀ d : StructuredDocument, map_to_template "lifetime_beneficiary" t' d
        = { d with basic_information := appendToListField d.basic_information "Primary_Beneficiaries" t' } :=
      fun d => applyRules_lifetime_beneficiary _ _ _ d (by decide)
    simp only [e2, e3]
    exact appendToListField_twice "Primary_Beneficiaries" t t' hne
  · have e2 : ∀ d : StructuredDocument, map_to_template "contingent_beneficiary" t d
        = { d with basic_information := appendToListField d.basic_information "Contingent_Beneficiaries" t } :=
      fun d => applyRules_contingent_beneficiary _ _ _ d (by decide)
    have e3 : ∀ d : StructuredDocument, map_to_template "contingent_beneficiary" t' d
        = { d with basic_information := appendToListField d.basic_information "Contingent_Beneficiaries" t' } :=
      fun d => applyRules_contingent_beneficiary _ _ _ d (by decide)
    simp only [e2, e3]
    exact appendToListField_twice "Contingent_Beneficiaries" t t' hne

/-- C7, witness at concrete texts and the grantor list. -/
theorem c7_list_dedup_witness :
    lookupS (map_to_template "grantor" "Jane Doe"
        (map_to_template "grantor" "Jane Doe" emptyDocument)).basic_information "Grantor(s)"
      = some (Value.list ["Jane Doe"]) ∧
    lookupS (map_to_template "grantor" "John Smith"
        (map_to_template "grantor" "Jane Doe" emptyDocument)).basic_information "Grantor(s)"
      = some (Value.list ["Jane Doe", "John Smith"]) :=
  c7_list_dedup "Jane Doe" "John Smith" (by decide) "grantor" "Grantor(s)" (by decide)

/-- C8: a span reaching the spendthrift (resp. no-contest) rule sets the
corresponding Details field to "yes" for non-empty text and "no" for
empty-string text; and when no span matching the rule occurs in the input
(whether its label lacks the key substring or another branch consumes it),
the field is "no" after defaulting over the trust template. -/
theorem c8_boolean_derivation :
    (∀ label text : String, ∀ doc : StructuredDocument,
      ReachesSpendthrift (normalizeLabel label) →
        lookupS (map_to_template label text doc).details "Spendthrift_Provision"
          = some (Value.str (if text = "" then "no" else "yes"))) ∧
    (∀ label text : String, ∀ doc : StructuredDocument,
      ReachesNoContest (normalizeLabel label) →
        lookupS (map_to_template label text doc).details "No-Contest_Clause"
          = some (Value.str (if text = "" then "no" else "yes"))) ∧
    (∀ (spans : List ExtractionSpan) (dv : String),
      (∀ s ∈ spans, ¬ ReachesSpendthrift (normalizeLabel s.extraction_class)) →
        lookupS (fill_missing_fields (assembleSpans spans) trustTemplate dv).details
          "Spendthrift_Provision" = some (Value.str "no")) ∧
    (∀ (spans : List ExtractionSpan) (dv : String),
      (∀ s ∈ spans, ¬ ReachesNoContest (normalizeLabel s.extraction_class)) →
        lookupS (fill_missing_fields (assembleSpans spans) trustTemplate dv).details
          "No-Contest_Clause" = some (Value.str "no")) := by
  refine ⟨?_, ?_, ?_, ?_⟩
  · intro label text doc h
    have e : map_to_template label text doc
        = { doc with details := setKey doc.details "Spendthrift_Provision" (Value.str (if text = "" then "no" else "yes")) } :=
      applyRules_spendthrift (normalizeLabel label) label text doc h
    rw [e]
    exact lookupS_setKey_self _ _ _
  · intro label text doc h
    have e : map_to_template label text doc
        = { doc with details := setKey doc.details "No-Contest_Clause" (Value.str (if text = "" then "no" else "yes")) } :=
      applyRules_nocontest (normalizeLabel label) label text doc h
    rw [e]
    exact lookupS_setKey_self _ _ _
  · intro spans dv h
    have hnone : lookupS (assembleSpans spans).details "Spendthrift_Provision" = none :=
      foldl_spendthrift_none spans h emptyDocument rfl
    have hfill := @fillSection_fills (detailsDefault dv) trustTemplate.details
      "Spendthrift_Provision" (FieldSpec.strSpec "yes_no")
      (by decide) (by decide) (assembleSpans spans).details hnone
    have hval : detailsDefault dv "Spendthrift_Provision" (FieldSpec.strSpec "yes_no")
        = Value.str "no" := rfl
    rw [hval] at hfill
    rw [fill_missing_fields_details]
    exact hfill
  · intro spans dv h
    have hnone : lookupS (assembleSpans spans).details "No-Contest_Clause" = none :=
      foldl_nocontest_none spans h emptyDocument rfl
    have hfill := @fillSection_fills (detailsDefault dv) trustTemplate.details
      "No-Contest_Clause" (FieldSpec.strSpec "yes_no")
      (by decide) (by decide) (assembleSpans spans).details hnone
    have hval : detailsDefault dv "No-Contest_Clause" (FieldSpec.strSpec "yes_no")
        = Value.str "no" := rfl
    rw [hval] at hfill
    rw [fill_missing_fields_details]
    exact hfill

/-- C8, witness: concrete spans for both rules, both text cases, the
empty-input defaulting case, and an input whose label contains the key
substring but is consumed by another rule (so no span matches the
spendthrift rule and the field still defaults to "no"). -/
theorem c8_boolean_derivation_witness :
    lookupS (map_to_template "spendthrift_clause" "assets are protected" emptyDocument).details
        "Spendthrift_Provision" = some (Value.str "yes") ∧
      lookupS (map_to_template "spendthrift_clause" "" emptyDocument).details
        "Spendthrift_Provision" = some (Value.str "no") ∧
      lookupS (map_to_template "no_contest_clause" "forfeits all interest" emptyDocument).details
        "No-Contest_Clause" = some (Value.str "yes") ∧
      lookupS (fill_missing_fields (assembleSpans []) trustTemplate "Not specified").details
        "Spendthrift_Provision" = some (Value.str "no") ∧
      lookupS (fill_missing_fields (assembleSpans []) trustTemplate "Not specified").details
        "No-Contest_Clause" = some (Value.str "no") ∧
      lookupS (fill_missing_fields (assembleSpans [⟨"spendthrift_trustee", "x", none⟩])
          trustTemplate "Not specified").details "Spendthrift_Provision"
        = some (Value.str "no") ∧
      lookupS (fill_missing_fields (assembleSpans [⟨"nocontest_trustee", "y", none⟩])
          trustTemplate "Not specified").details "No-Contest_Clause"
        = some (Value.str "no") := by
  refine ⟨?_, ?_, ?_, ?_, ?_, ?_, ?_⟩
  · have h := c8_boolean_derivation.1 "spendthrift_clause" "assets are protected"
      emptyDocument (by decide)
    simpa using h
  · have h := c8_boolean_derivation.1 "spendthrift_clause" "" emptyDocument (by decide)
    simpa using h
  · have h := c8_boolean_derivation.2.1 "no_contest_clause" "forfeits all interest"
      emptyDocument (by decide)
    simpa using h
  · exact c8_boolean_derivation.2.2.1 [] "Not specified" (by simp)
  · exact c8_boolean_derivation.2.2.2 [] "Not specified" (by simp)
  · exact c8_boolean_derivation.2.2.1 [⟨"spendthrift_trustee", "x", none⟩] "Not specified"
      (by decide)
  · exact c8_boolean_derivation.2.2.2 [⟨"nocontest_trustee", "y", none⟩] "Not specified"
      (by decide)

/-- C9, counterexample: the validation short-circuit response for a missing
api_key is the bare one-field dict built in main — it is an error response
but carries no "type" field, refuting the claimed {error, type, trace?}
shape for this failure. -/
theorem c9_counterexample :
    mainStep ⟨"a trust document", "", none⟩ (fun _ _ => EngineResult.ok []) trustTemplate true
        "Not specified" = Response.simpleError "No API key provided" ∧
      responseHasTypeField (mainStep ⟨"a trust document", "", none⟩
        (fun _ _ => EngineResult.ok []) trustTemplate true "Not specified") = false := by
  decide

/-- C9, amended: a request with empty api_key or empty document_text
short-circuits — the result does not depend on the extraction engine and is
an error response, but of the one-field form {error} without a "type" field;
the {error, type, traceback} shape is produced only for failures raised by
the engine call inside processing. -/
theorem c9_amended_theorem :
    ∀ (req : Request) (e1 e2 : String → Option String → EngineResult)
      (tmpl : Template) (fe : Bool) (dv : String),
      (req.api_key = "" ∨ req.document_text = "") →
        mainStep req e1 tmpl fe dv = mainStep req e2 tmpl fe dv ∧
          responseIsError (mainStep req e1 tmpl fe dv) = true ∧
          responseHasTypeField (mainStep req e1 tmpl fe dv) = false ∧
          (∀ err ty tb : String,
            process_document (EngineResult.exn err ty tb) tmpl fe dv
              = Response.typedError err ty tb) := by
  intro req e1 e2 tmpl fe dv h
  by_cases ha : req.api_key = ""
  · refine ⟨?_, ?_, ?_, fun err ty tb => rfl⟩ <;>
      simp [mainStep, ha, responseIsError, responseHasTypeField]
  · rcases h with h | h
    · exact absurd h ha
    · refine ⟨?_, ?_, ?_, fun err ty tb => rfl⟩ <;>
        simp [mainStep, ha, h, responseIsError, responseHasTypeField]

/-- C9, witness for the amended theorem: a concrete request with an empty
api_key, evaluated against two different engines. -/
theorem c9_amended_witness :
    mainStep ⟨"doc text", "", none⟩ (fun _ _ => EngineResult.ok []) trustTemplate true
          "Not specified"
        = mainStep ⟨"doc text", "", none⟩
            (fun _ _ => EngineResult.exn "boom" "RuntimeError" "trace") trustTemplate true
            "Not specified" ∧
      responseIsError (mainStep ⟨"doc text", "", none⟩ (fun _ _ => EngineResult.ok [])
        trustTemplate true "Not specified") = true ∧
      responseHasTypeField (mainStep ⟨"doc text", "", none⟩ (fun _ _ => EngineResult.ok [])
        trustTemplate true "Not specified") = false ∧
      (∀ err ty tb : String,
        process_document (EngineResult.exn err ty tb) trustTemplate true "Not specified"
          = Response.typedError err ty tb) :=
  c9_amended_theorem ⟨"doc text", "", none⟩ (fun _ _ => EngineResult.ok [])
    (fun _ _ => EngineResult.exn "boom" "RuntimeError" "trace") trustTemplate true
    "Not specified" (Or.inl rfl)

/-- C10: the boolean Details fields are last-write-wins — a later empty-text
span overwrites an earlier non-empty one, leaving "no". -/
theorem c10_last_write_wins :
    ∀ t : String, t ≠ "" →
      lookupS (assembleSpans [⟨"spendthrift_clause", t, none⟩,
          ⟨"spendthrift_clause", "", none⟩]).details "Spendthrift_Provision"
        = some (Value.str "no") ∧
      lookupS (assembleSpans [⟨"no_contest_clause", t, none⟩,
          ⟨"no_contest_clause", "", none⟩]).details "No-Contest_Clause"
        = some (Value.str "no") := by
  intro t ht
  constructor
  · have e1 : ∀ d : StructuredDocument, map_to_template "spendthrift_clause" t d
        = { d with details := setKey d.details "Spendthrift_Provision" (Value.str (if t = "" then "no" else "yes")) } :=
      fun d => applyRules_spendthrift _ _ _ d (by decide)
    have e2 : ∀ d : StructuredDocument, map_to_template "spendthrift_clause" "" d
        = { d with details := setKey d.details "Spendthrift_Provision" (Value.str (if "" = "" then "no" else "yes")) } :=
      fun d => applyRules_spendthrift _ _ _ d (by decide)
    simp only [assembleSpans, List.foldl, processExtraction, e1, e2]
    simp [lookupS_setKey]
  · have e1 : ∀ d : StructuredDocument, map_to_template "no_contest_clause" t d
        = { d with details := setKey d.details "No-Contest_Clause" (Value.str (if t = "" then "no" else "yes")) } :=
      fun d => applyRules_nocontest _ _ _ d (by decide)
    have e2 : ∀ d : StructuredDocument, map_to_template "no_contest_clause" "" d
        = { d with details := setKey d.details "No-Contest_Clause" (Value.str (if "" = "" then "no" else "yes")) } :=
      fun d => applyRules_nocontest _ _ _ d (by decide)
    simp only [assembleSpans, List.foldl, processExtraction, e1, e2]
    simp [lookupS_setKey]

/-- C10, witness at a concrete non-empty first text. -/
theorem c10_last_write_wins_witness :
    lookupS (assembleSpans [⟨"spendthrift_clause", "yes, per Article 5", none⟩,
        ⟨"spendthrift_clause", "", none⟩]).details "Spendthrift_Provision"
      = some (Value.str "no") ∧
    lookupS (assembleSpans [⟨"no_contest_clause", "yes, per Article 5", none⟩,
        ⟨"no_contest_clause", "", none⟩]).details "No-Contest_Clause"
      = some (Value.str "no") :=
  c10_last_write_wins "yes, per Article 5" (by decide)

end TrustDocProcessor
